import Mathlib

/-
Shallow embedding of the eil-rs cross-chain SDK core, translated from the
repository sources: the voucher coordinator (src/voucher.rs), the type-state
builder and its batch operations (src/builder.rs), the SDK-to-contract
voucher translation (src/builder.rs), and the executor loop (src/executor.rs).

Modelling conventions:
- Machine integers (u64, usize, U256) are modelled as Nat; no arithmetic in
  the modelled paths can overflow their Rust widths on the inputs considered.
- Addresses are opaque 20-byte values, modelled as Nat.  Hex blobs are byte
  lists (List Nat); only construction and emptiness are used by the core.
- Fallible Rust functions returning Result are modelled as Except.  Rust
  panics (expect / unwrap) are a distinct failure mode from EilError, so the
  failure type is the sum `Fail` below, with `panicked msg` for a panic.
- Rust std::collections::HashMap iterates its entries in an order determined
  by the per-map seeded hash state, NOT in insertion order.  The coordinator
  map is therefore modelled with an explicit hash-position function
  (standing for the seeded hash / table layout chosen at HashMap::new):
  entries are kept arranged by ascending hash position, and iteration
  (values / the for loop of validate_all_consumed) walks that arrangement.
  Maps whose iteration order is never observed by the code (token deployment
  tables, the executor per-batch voucher accumulator) are modelled as plain
  association lists, since only keyed lookup is used on them.
- Collaborator traits (MultiChainSmartAccount) are modelled as records of
  functions, and the Action trait as a function from the batch chain id to
  the encoded calls, which is the only batch data the in-repo
  implementations consult.
-/

namespace Eil

/-- ChainId: unsigned 64-bit integer (src/types.rs). -/
abbrev ChainId := Nat

/-- Address: 20-byte blob, modelled opaquely (src/types.rs). -/
abbrev Address := Nat

/-- Hex: variable-length byte blob (src/types.rs). -/
abbrev Hex := List Nat

/-- U256: unsigned 256-bit integer (src/types.rs). -/
abbrev U256 := Nat

/-- RuntimeVar (src/types.rs): identifier of a runtime-resolved value. -/
structure RuntimeVar where
  name : String
deriving DecidableEq, Repr

/-- Amount (src/types.rs): fixed value or runtime variable. -/
inductive Amount where
  | fixed (value : U256)
  | runtime (var : RuntimeVar)
deriving DecidableEq, Repr

/-- MultichainToken (src/multichain.rs): token symbol plus per-chain
deployment table.  Only keyed lookup (address_on) is used on the table, so it
is modelled as an association list. -/
structure MultichainToken where
  name : String
  deployments : List (ChainId × Address)
deriving DecidableEq, Repr

/-- address_on of MultichainToken (src/multichain.rs): HashMap::get. -/
def MultichainToken.address_on (t : MultichainToken) (chain_id : ChainId) :
    Option Address :=
  (t.deployments.find? (fun p => p.1 == chain_id)).map (·.2)

/-- TokenAmount (src/types.rs). -/
structure TokenAmount where
  token : MultichainToken
  amount : Amount
  min_provider_deposit : Option U256
deriving DecidableEq, Repr

/-- SdkVoucherRequest (src/contract_types.rs). -/
structure SdkVoucherRequest where
  ref_id : String
  source_chain_id : Option ChainId
  destination_chain_id : ChainId
  tokens : List TokenAmount
  target : Option Address
deriving DecidableEq, Repr

/-- Asset (src/contract_types.rs). -/
structure Asset where
  erc20_token : Address
  amount : U256
deriving DecidableEq, Repr

/-- AtomicSwapFeeRule (src/contract_types.rs): four fee numerators. -/
structure AtomicSwapFeeRule where
  start_fee_percent_numerator : U256
  max_fee_percent_numerator : U256
  fee_increase_per_second : U256
  unspent_voucher_fee : U256
deriving DecidableEq, Repr

/-- SourceSwapComponent (src/contract_types.rs). -/
structure SourceSwapComponent where
  chain_id : ChainId
  sender : Address
  paymaster : Address
  assets : List Asset
  fee_rule : AtomicSwapFeeRule
  sender_nonce : U256
  allowed_xlps : List Address
deriving DecidableEq, Repr

/-- DestinationSwapComponent (src/contract_types.rs). -/
structure DestinationSwapComponent where
  chain_id : ChainId
  sender : Address
  paymaster : Address
  assets : List Asset
  max_user_op_cost : U256
  expires_at : U256
deriving DecidableEq, Repr

/-- VoucherRequest, on-chain form (src/contract_types.rs). -/
structure VoucherRequest where
  origination : SourceSwapComponent
  destination : DestinationSwapComponent
deriving DecidableEq, Repr

/-- Voucher, signed by an XLP (src/contract_types.rs). -/
structure Voucher where
  request : VoucherRequest
  signature : Hex
deriving DecidableEq, Repr

/-- UserOperation, ERC-4337 shape (src/contract_types.rs). -/
structure UserOperation where
  sender : Address
  nonce : U256
  factory : Option Address
  factory_data : Option Hex
  call_data : Hex
  call_gas_limit : U256
  verification_gas_limit : U256
  pre_verification_gas : U256
  max_fee_per_gas : U256
  max_priority_fee_per_gas : U256
  paymaster : Option Address
  paymaster_verification_gas_limit : Option U256
  paymaster_post_op_gas_limit : Option U256
  paymaster_data : Option Hex
  paymaster_signature : Option Hex
  signature : Hex
  chain_id : Option ChainId
  entry_point_address : Option Address
deriving DecidableEq, Repr

/-- SingleChainBatch (src/contract_types.rs). -/
structure SingleChainBatch where
  user_op : UserOperation
  user_op_hash : Hex
  chain_id : ChainId
  input_voucher_requests : List SdkVoucherRequest
  out_voucher_requests : List SdkVoucherRequest
deriving DecidableEq, Repr

/-- EilError (src/error.rs).  Transport and serialization wrappers carry only
their message text here. -/
inductive EilError where
  | unsupportedChain (chain : Nat)
  | invalidAddress (chain_id : Nat) (address : String)
  | voucherNotFound (ref_id : String)
  | duplicateVoucher (ref_id : String)
  | voucherNotConsumed (ref_id : String) (chain : Nat)
  | voucherAlreadyUsed (ref_id : String)
  | invalidVoucherDestination (expected : Nat) (actual : Nat)
  | accountNotSet
  | accountAlreadySet
  | builderAlreadyBuilt
  | contractNotDeployed (name : String) (chain_id : Nat) (address : String)
  | noXlpsFound (chain : Nat)
  | insufficientXlps (found : Nat) (required : Nat) (chain_id : Nat)
  | invalidVariableName (name : String)
  | dynamicVariableCall (name : String)
  | sameChainVoucher (chain : Nat)
  | cannotOverridePaymaster
  | noVoucherForChain (chain : Nat)
  | userOpNotSigned
  | executionAlreadyStarted
  | executionTimeout (seconds : Nat)
  | alloyProvider (msg : String)
  | alloyContract (msg : String)
  | alloySigner (msg : String)
  | serialization (msg : String)
  | hexDecode (msg : String)
  | generic (msg : String)
deriving DecidableEq, Repr

/-- Failure mode of a modelled Rust computation: a returned EilError, or a
panic (expect / unwrap), tagged by the panic site. -/
inductive Fail where
  | err (e : EilError)
  | panicked (msg : String)
deriving DecidableEq, Repr

/-- Propagate a Result into a panic-aware computation (the ? operator). -/
def liftE {α : Type} : Except EilError α → Except Fail α
  | .ok a => .ok a
  | .error e => .error (.err e)

/-- Result::expect: value on Ok, panic with the given message on Err. -/
def expectE {α : Type} (x : Except EilError α) (msg : String) : Except Fail α :=
  match x with
  | .ok a => .ok a
  | .error _ => .error (.panicked msg)

/-- Option::unwrap, tagged with its call site. -/
def unwrapO {α : Type} (x : Option α) (site : String) : Except Fail α :=
  match x with
  | some a => .ok a
  | none => .error (.panicked site)

/-- Result::unwrap, tagged with its call site. -/
def unwrapE {α : Type} (x : Except EilError α) (site : String) : Except Fail α :=
  match x with
  | .ok a => .ok a
  | .error _ => .error (.panicked site)

/-- InternalVoucherInfo (src/voucher.rs): the coordinator entry. -/
structure InternalVoucherInfo where
  voucher : SdkVoucherRequest
  source_batch_index : Nat
  dest_batch_index : Option Nat
  voucher_request : Option VoucherRequest
  allowed_xlps : Option (List Address)
  signed_voucher : Option Voucher
deriving DecidableEq, Repr

/-- VoucherCoordinator (src/voucher.rs): HashMap from ref_id to
InternalVoucherInfo.  hashPos stands for the seeded hash state that
HashMap::new draws, which fixes where each key lands in the table and hence
the iteration order; entries are kept arranged by ascending hashPos, with a
later insert placed after earlier entries of equal position. -/
structure VoucherCoordinator where
  hashPos : String → Nat
  entries : List (String × InternalVoucherInfo)

/-- VoucherCoordinator::new (src/voucher.rs), for a given seeded hash state. -/
def VoucherCoordinator.new (h : String → Nat) : VoucherCoordinator :=
  ⟨h, []⟩

/-- Place a new entry into the table arrangement according to its hash
position. -/
def insertByPos (h : String → Nat) (k : String) (v : InternalVoucherInfo) :
    List (String × InternalVoucherInfo) → List (String × InternalVoucherInfo)
  | [] => [(k, v)]
  | p :: rest =>
    if h k < h p.1 then (k, v) :: p :: rest else p :: insertByPos h k v rest

/-- Keyed lookup in the table arrangement (HashMap::get walks the bucket of
the key; with unique keys this is a plain keyed search). -/
def findEntry (ref_id : String) :
    List (String × InternalVoucherInfo) → Option InternalVoucherInfo
  | [] => none
  | p :: rest => if p.1 == ref_id then some p.2 else findEntry ref_id rest

/-- HashMap::get on the coordinator map. -/
def VoucherCoordinator.find (c : VoucherCoordinator) (ref_id : String) :
    Option InternalVoucherInfo :=
  findEntry ref_id c.entries

/-- HashMap::contains_key on the coordinator map. -/
def VoucherCoordinator.contains_key (c : VoucherCoordinator) (ref_id : String) :
    Bool :=
  (c.find ref_id).isSome

/-- Update one table entry in place when its key matches. -/
def modEntry (ref_id : String) (f : InternalVoucherInfo → InternalVoucherInfo)
    (p : String × InternalVoucherInfo) : String × InternalVoucherInfo :=
  if p.1 == ref_id then (p.1, f p.2) else p

/-- In-place update of the entry stored under a key (the effect of a
get_mut-based mutation). -/
def VoucherCoordinator.modifyEntry (c : VoucherCoordinator) (ref_id : String)
    (f : InternalVoucherInfo → InternalVoucherInfo) : VoucherCoordinator :=
  ⟨c.hashPos, c.entries.map (modEntry ref_id f)⟩

/-- VoucherCoordinator::register (src/voucher.rs): DuplicateVoucher when the
ref_id is present, otherwise insert the entry in its initial state. -/
def VoucherCoordinator.register (c : VoucherCoordinator)
    (voucher : SdkVoucherRequest) (source_batch_index : Nat) :
    Except EilError VoucherCoordinator :=
  if c.contains_key voucher.ref_id then
    .error (.duplicateVoucher voucher.ref_id)
  else
    .ok ⟨c.hashPos,
      insertByPos c.hashPos voucher.ref_id
        { voucher := voucher
          source_batch_index := source_batch_index
          dest_batch_index := none
          voucher_request := none
          allowed_xlps := none
          signed_voucher := none } c.entries⟩

/-- VoucherCoordinator::mark_consumed (src/voucher.rs). -/
def VoucherCoordinator.mark_consumed (c : VoucherCoordinator) (ref_id : String)
    (dest_batch_index : Nat) : Except EilError VoucherCoordinator :=
  match c.find ref_id with
  | none => .error (.voucherNotFound ref_id)
  | some info =>
    if info.dest_batch_index.isSome then
      .error (.voucherAlreadyUsed ref_id)
    else
      .ok (c.modifyEntry ref_id
        (fun i => { i with dest_batch_index := some dest_batch_index }))

/-- VoucherCoordinator::get (src/voucher.rs). -/
def VoucherCoordinator.get (c : VoucherCoordinator) (ref_id : String) :
    Except EilError InternalVoucherInfo :=
  match c.find ref_id with
  | none => .error (.voucherNotFound ref_id)
  | some info => .ok info

/-- VoucherCoordinator::set_voucher_request (src/voucher.rs): get_mut then
store, unconditionally overwriting the field. -/
def VoucherCoordinator.set_voucher_request (c : VoucherCoordinator)
    (ref_id : String) (voucher_request : VoucherRequest) :
    Except EilError VoucherCoordinator :=
  match c.find ref_id with
  | none => .error (.voucherNotFound ref_id)
  | some _ =>
    .ok (c.modifyEntry ref_id
      (fun i => { i with voucher_request := some voucher_request }))

/-- VoucherCoordinator::set_allowed_xlps (src/voucher.rs). -/
def VoucherCoordinator.set_allowed_xlps (c : VoucherCoordinator)
    (ref_id : String) (xlps : List Address) : Except EilError VoucherCoordinator :=
  match c.find ref_id with
  | none => .error (.voucherNotFound ref_id)
  | some _ =>
    .ok (c.modifyEntry ref_id (fun i => { i with allowed_xlps := some xlps }))

/-- VoucherCoordinator::set_signed_voucher (src/voucher.rs). -/
def VoucherCoordinator.set_signed_voucher (c : VoucherCoordinator)
    (ref_id : String) (voucher : Voucher) : Except EilError VoucherCoordinator :=
  match c.find ref_id with
  | none => .error (.voucherNotFound ref_id)
  | some _ =>
    .ok (c.modifyEntry ref_id (fun i => { i with signed_voucher := some voucher }))

/-- VoucherCoordinator::all_vouchers (src/voucher.rs): values() collected in
table order. -/
def VoucherCoordinator.all_vouchers (c : VoucherCoordinator) :
    List InternalVoucherInfo :=
  c.entries.map (·.2)

/-- VoucherCoordinator::unconsumed_vouchers (src/voucher.rs). -/
def VoucherCoordinator.unconsumed_vouchers (c : VoucherCoordinator) :
    List InternalVoucherInfo :=
  (c.entries.map (·.2)).filter (fun v => v.dest_batch_index.isNone)

/-- The for loop of validate_all_consumed over the map entries, in table
order. -/
def validateEntries : List (String × InternalVoucherInfo) → Except EilError Unit
  | [] => .ok ()
  | (ref_id, info) :: rest =>
    if info.dest_batch_index.isNone then
      .error (.voucherNotConsumed ref_id (info.voucher.source_chain_id.getD 0))
    else
      validateEntries rest

/-- VoucherCoordinator::validate_all_consumed (src/voucher.rs). -/
def VoucherCoordinator.validate_all_consumed (c : VoucherCoordinator) :
    Except EilError Unit :=
  validateEntries c.entries

/-- One coordinator mutation, for reasoning about arbitrary operation
sequences.  Each constructor corresponds to one public mutating method of
VoucherCoordinator (src/voucher.rs). -/
inductive CoordOp where
  | reg (voucher : SdkVoucherRequest) (source_batch_index : Nat)
  | mark (ref_id : String) (dest_batch_index : Nat)
  | setVR (ref_id : String) (voucher_request : VoucherRequest)
  | setXlps (ref_id : String) (xlps : List Address)
  | setSigned (ref_id : String) (voucher : Voucher)

/-- Apply one coordinator operation; a method that returns Err leaves the
map unchanged, as every error return in src/voucher.rs happens before any
mutation. -/
def stepCoord (c : VoucherCoordinator) : CoordOp → VoucherCoordinator
  | .reg v s => match c.register v s with | .ok c2 => c2 | .error _ => c
  | .mark r d => match c.mark_consumed r d with | .ok c2 => c2 | .error _ => c
  | .setVR r vr => match c.set_voucher_request r vr with | .ok c2 => c2 | .error _ => c
  | .setXlps r xs => match c.set_allowed_xlps r xs with | .ok c2 => c2 | .error _ => c
  | .setSigned r v => match c.set_signed_voucher r v with | .ok c2 => c2 | .error _ => c

/-- Apply a sequence of coordinator operations. -/
def runCoord (c : VoucherCoordinator) (ops : List CoordOp) : VoucherCoordinator :=
  ops.foldl stepCoord c

/-- Call (src/types.rs): one raw on-chain call. -/
structure Call where
  target : Address
  data : Hex
  value : Option U256
deriving DecidableEq, Repr

/-- An Action (src/actions.rs) is modelled by its encode_call capability.
The trait method receives the whole BatchBuilder, but every implementation
in the repository consults only the batch chain id, so an action is a
function from that chain id to the encoded calls. -/
def Action : Type := ChainId → Except EilError (List Call)

/-- FeeConfig (src/config.rs).  The Rust fields are binary64 percentages
which utils::fee_percent_to_numerator converts to U256 numerators at
fee-rule build time; floating point is outside this embedding, so each
percentage is carried here directly by the numerator that conversion
yields for it. -/
structure FeeConfig where
  start_fee_percent_numerator : U256
  max_fee_percent_numerator : U256
  fee_increase_per_second_numerator : U256
  unspent_voucher_fee_percent_numerator : U256
deriving DecidableEq, Repr

/-- ChainInfo (src/config.rs). -/
structure ChainInfo where
  chain_id : ChainId
  rpc_url : String
  entry_point : Address
  paymaster : Address
  bundler_url : Option String
deriving DecidableEq, Repr

/-- CrossChainConfig (src/config.rs).  The XLP selection policy and source
paymaster are never consulted by the modelled paths (get_allowed_xlps is the
placeholder that returns an empty list) and are omitted. -/
structure CrossChainConfig where
  expire_time_seconds : Nat
  exec_timeout_seconds : Nat
  fee_config : FeeConfig
  chain_infos : List ChainInfo
deriving DecidableEq, Repr

/-- CrossChainConfig::chain_info (src/config.rs): first entry with the
given chain id. -/
def CrossChainConfig.chain_info (cfg : CrossChainConfig) (chain_id : ChainId) :
    Option ChainInfo :=
  cfg.chain_infos.find? (fun c => c.chain_id == chain_id)

/-- NetworkEnvironment (src/network.rs).  The rpc_urls table is only read
by rpc_url(), which the modelled paths never call, so only the
configuration is carried. -/
structure NetworkEnvironment where
  config : CrossChainConfig

/-- NetworkEnvironment::entry_point (src/network.rs). -/
def NetworkEnvironment.entry_point (env : NetworkEnvironment)
    (chain_id : ChainId) : Except EilError Address :=
  match env.config.chain_info chain_id with
  | some info => .ok info.entry_point
  | none => .error (.unsupportedChain chain_id)

/-- NetworkEnvironment.paymaster (src/network.rs). -/
def NetworkEnvironment.paymaster (env : NetworkEnvironment)
    (chain_id : ChainId) : Except EilError Address :=
  match env.config.chain_info chain_id with
  | some info => .ok info.paymaster
  | none => .error (.unsupportedChain chain_id)

/-- MultiChainSmartAccount (src/account.rs), restricted to the capabilities
the modelled paths consume: a record of collaborator-supplied functions. -/
structure MultiChainSmartAccount where
  address_on : ChainId → Except EilError Address
  sign_user_ops : List UserOperation → Except EilError (List UserOperation)

/-- BatchBuilder data (src/builder.rs), without the parent back-reference. -/
structure BatchBuilder where
  chain_id : ChainId
  batch_index : Nat
  actions : List Action
  input_vouchers : List SdkVoucherRequest
  output_vouchers : List SdkVoucherRequest
  vars : List String
  user_op_overrides : Option UserOperation

/-- CrossChainBuilder (src/builder.rs).  The ephemeral_signer bytes are
never read by the modelled paths and are omitted; the type-state parameter
is represented by which operations are offered on which state below. -/
structure CrossChainBuilder where
  network_env : NetworkEnvironment
  batches : List BatchBuilder
  coordinator : VoucherCoordinator
  account : Option MultiChainSmartAccount
  is_built : Bool

/-- CrossChainBuilder::new (src/builder.rs), with the hash state that the
fresh coordinator map draws. -/
def CrossChainBuilder.new (env : NetworkEnvironment) (h : String → Nat) :
    CrossChainBuilder :=
  { network_env := env
    batches := []
    coordinator := VoucherCoordinator.new h
    account := none
    is_built := false }

/-- CrossChainBuilder::use_account (src/builder.rs). -/
def CrossChainBuilder.use_account (b : CrossChainBuilder)
    (account : MultiChainSmartAccount) : Except EilError CrossChainBuilder :=
  if b.account.isSome then
    .error .accountAlreadySet
  else
    .ok { b with account := some account }

/-- A batch under construction together with its parent builder
(BatchBuilder.parent_builder in src/builder.rs). -/
structure ActiveBatch where
  batch : BatchBuilder
  parent : CrossChainBuilder

/-- CrossChainBuilder::start_batch (src/builder.rs): the new batch index is
the current number of accumulated batches. -/
def CrossChainBuilder.start_batch (b : CrossChainBuilder) (chain_id : ChainId) :
    ActiveBatch :=
  { batch :=
      { chain_id := chain_id
        batch_index := b.batches.length
        actions := []
        input_vouchers := []
        output_vouchers := []
        vars := []
        user_op_overrides := none }
    parent := b }

/-- BatchBuilder::add_action (src/builder.rs). -/
def ActiveBatch.add_action (ab : ActiveBatch) (action : Action) : ActiveBatch :=
  { ab with batch := { ab.batch with actions := ab.batch.actions ++ [action] } }

/-- BatchBuilder::add_voucher_request (src/builder.rs): unconditionally
overwrites source_chain_id with the batch chain, then records the request
as an output voucher. -/
def ActiveBatch.add_voucher_request (ab : ActiveBatch)
    (request : SdkVoucherRequest) : ActiveBatch :=
  let request := { request with source_chain_id := some ab.batch.chain_id }
  { ab with batch :=
      { ab.batch with output_vouchers := ab.batch.output_vouchers ++ [request] } }

/-- BatchBuilder::use_voucher (src/builder.rs): mark_consumed with this
batch index, then record the voucher as an input. -/
def ActiveBatch.use_voucher (ab : ActiveBatch) (ref_id : String) :
    Except EilError ActiveBatch := do
  let c2 ← ab.parent.coordinator.mark_consumed ref_id ab.batch.batch_index
  let info ← c2.get ref_id
  .ok { batch :=
          { ab.batch with input_vouchers := ab.batch.input_vouchers ++ [info.voucher] }
        parent := { ab.parent with coordinator := c2 } }

/-- The registration loop of end_batch (src/builder.rs): register each
output voucher under this batch index; a failed registration is unwrapped
with expect and therefore panics. -/
def registerOutputs (c : VoucherCoordinator) (batch_index : Nat) :
    List SdkVoucherRequest → Except Fail VoucherCoordinator
  | [] => .ok c
  | v :: rest =>
    match c.register v batch_index with
    | .ok c2 => registerOutputs c2 batch_index rest
    | .error _ => .error (.panicked "Failed to register voucher")

/-- BatchBuilder::end_batch (src/builder.rs): register the output vouchers,
then hand the batch to the parent builder. -/
def ActiveBatch.end_batch (ab : ActiveBatch) : Except Fail CrossChainBuilder := do
  let c2 ← registerOutputs ab.parent.coordinator ab.batch.batch_index
    ab.batch.output_vouchers
  .ok { ab.parent with
        coordinator := c2
        batches := ab.parent.batches ++ [ab.batch] }

/-- One builder-surface operation, for reasoning about the states the
builder API can reach. -/
inductive BuilderOp where
  | startBatch (chain_id : ChainId)
  | addVoucherRequest (request : SdkVoucherRequest)
  | useVoucher (ref_id : String)
  | endBatch

/-- A builder is either between batches or inside one; the Rust type-state
makes exactly these two shapes expressible. -/
inductive BuilderState where
  | ready (b : CrossChainBuilder)
  | inBatch (ab : ActiveBatch)

/-- Apply one builder operation.  Operations whose receiver shape does not
match are unrepresentable in the Rust type-state API and are mapped to a
distinguished panic. -/
def stepBuilder : BuilderState → BuilderOp → Except Fail BuilderState
  | .ready b, .startBatch chain_id => .ok (.inBatch (b.start_batch chain_id))
  | .inBatch ab, .addVoucherRequest request =>
    .ok (.inBatch (ab.add_voucher_request request))
  | .inBatch ab, .useVoucher ref_id =>
    (liftE (ab.use_voucher ref_id)).map .inBatch
  | .inBatch ab, .endBatch => (ab.end_batch).map .ready
  | _, _ => .error (.panicked "operation not offered by the type-state")

/-- Apply a sequence of builder operations. -/
def runBuilder : BuilderState → List BuilderOp → Except Fail BuilderState
  | st, [] => .ok st
  | st, op :: rest => do runBuilder (← stepBuilder st op) rest

/-- The XLP lookup used during build (src/builder.rs get_allowed_xlps): the
placeholder that always returns an empty list. -/
def get_allowed_xlps (_voucher : SdkVoucherRequest) : Except EilError (List Address) :=
  .ok []

/-- The loop body of collect_xlps_per_voucher (src/builder.rs): for each
ref_id, read the voucher, query the XLPs and store them. -/
def collectXlpsGo (c : VoucherCoordinator) :
    List String → Except EilError VoucherCoordinator
  | [] => .ok c
  | ref_id :: rest => do
    let voucher := (← c.get ref_id).voucher
    let xlps ← get_allowed_xlps voucher
    let c2 ← c.set_allowed_xlps voucher.ref_id xlps
    collectXlpsGo c2 rest

/-- CrossChainBuilder::collect_xlps_per_voucher (src/builder.rs): the
ref_ids are snapshotted from all_vouchers before the loop. -/
def CrossChainBuilder.collect_xlps_per_voucher (b : CrossChainBuilder) :
    Except EilError VoucherCoordinator :=
  collectXlpsGo b.coordinator (b.coordinator.all_vouchers.map (·.voucher.ref_id))

/-- The token-to-asset conversion inside sdk_to_voucher_request
(src/builder.rs): resolve each token on the given chain, take the fixed
amount or fall back to min_provider_deposit (default 1) for runtime
amounts; the first resolution failure aborts the collection. -/
def assetsOn (chain_id : ChainId) : List TokenAmount → Except EilError (List Asset)
  | [] => .ok []
  | t :: rest =>
    match t.token.address_on chain_id with
    | none =>
      .error (.invalidAddress chain_id ("Token " ++ t.token.name ++ " not deployed"))
    | some token_addr => do
      let others ← assetsOn chain_id rest
      .ok ({ erc20_token := token_addr
             amount :=
               match t.amount with
               | .fixed a => a
               | .runtime _ => t.min_provider_deposit.getD 1 } :: others)

/-- The panic site of the source_chain_id unwrap in sdk_to_voucher_request
(src/builder.rs line 196). -/
def sourceChainUnwrapSite : String := "sdk_request.source_chain_id.unwrap"

/-- The panic site of the destination address_on unwrap in
sdk_to_voucher_request (src/builder.rs line 202). -/
def destAddressUnwrapSite : String := "account.address_on(dest_chain).unwrap"

/-- The tail of sdk_to_voucher_request after the source chain id has been
unwrapped (src/builder.rs lines 197-302), in source error-surfacing order:
source sender, destination sender, both paymasters, source assets, fee rule,
coordinator lookup for the allowed XLPs, then the destination assets. -/
def sdkToVoucherRest (env : NetworkEnvironment) (account : MultiChainSmartAccount)
    (coordinator : VoucherCoordinator) (now_seconds : Nat)
    (sdk_request : SdkVoucherRequest) (source_chain : ChainId) :
    Except Fail VoucherRequest := do
  let dest_chain := sdk_request.destination_chain_id
  let source_sender ← liftE (account.address_on source_chain)
  let dest_sender ←
    match sdk_request.target with
    | some t => pure t
    | none => unwrapE (account.address_on dest_chain) destAddressUnwrapSite
  let source_paymaster ← liftE (env.paymaster source_chain)
  let dest_paymaster ← liftE (env.paymaster dest_chain)
  let source_assets ← liftE (assetsOn source_chain sdk_request.tokens)
  let dest_assets_res := assetsOn dest_chain sdk_request.tokens
  let fee_config := env.config.fee_config
  let fee_rule : AtomicSwapFeeRule :=
    { start_fee_percent_numerator := fee_config.start_fee_percent_numerator
      max_fee_percent_numerator := fee_config.max_fee_percent_numerator
      fee_increase_per_second := fee_config.fee_increase_per_second_numerator
      unspent_voucher_fee := fee_config.unspent_voucher_fee_percent_numerator }
  let voucher_info ← liftE (coordinator.get sdk_request.ref_id)
  let allowed_xlps := voucher_info.allowed_xlps.getD []
  let dest_assets ← liftE dest_assets_res
  .ok { origination :=
          { chain_id := source_chain
            sender := source_sender
            paymaster := source_paymaster
            assets := source_assets
            fee_rule := fee_rule
            sender_nonce := 0
            allowed_xlps := allowed_xlps }
        destination :=
          { chain_id := dest_chain
            sender := dest_sender
            paymaster := dest_paymaster
            assets := dest_assets
            max_user_op_cost := 10000000000000000
            expires_at := now_seconds + env.config.expire_time_seconds } }

/-- CrossChainBuilder::sdk_to_voucher_request (src/builder.rs): requires the
account, unwraps source_chain_id (a panic when it is None), then the rest. -/
def sdk_to_voucher_request (env : NetworkEnvironment)
    (account : Option MultiChainSmartAccount) (coordinator : VoucherCoordinator)
    (now_seconds : Nat) (sdk_request : SdkVoucherRequest) :
    Except Fail VoucherRequest := do
  let account ←
    liftE (match account with
           | some a => .ok a
           | none => .error EilError.accountNotSet)
  let source_chain ← unwrapO sdk_request.source_chain_id sourceChainUnwrapSite
  sdkToVoucherRest env account coordinator now_seconds sdk_request source_chain

/-- The loop body of build_vouchers (src/builder.rs): translate each
snapshotted voucher against the current coordinator, then store the result. -/
def buildVouchersGo (env : NetworkEnvironment)
    (account : Option MultiChainSmartAccount) (now_seconds : Nat)
    (c : VoucherCoordinator) :
    List SdkVoucherRequest → Except Fail VoucherCoordinator
  | [] => .ok c
  | v :: rest => do
    let vr ← sdk_to_voucher_request env account c now_seconds v
    let c2 ← liftE (c.set_voucher_request v.ref_id vr)
    buildVouchersGo env account now_seconds c2 rest

/-- The two coordinator-updating phases of build_single_chain_batches
(src/builder.rs lines 90-94): collect_xlps_per_voucher then build_vouchers,
each snapshotting the voucher list before its loop. -/
def CrossChainBuilder.build_phases (b : CrossChainBuilder) (now_seconds : Nat) :
    Except Fail VoucherCoordinator := do
  let c1 ← liftE b.collect_xlps_per_voucher
  buildVouchersGo b.network_env b.account now_seconds c1
    (c1.all_vouchers.map (·.voucher))

/-- Encode the actions of a batch in insertion order, concatenating their
calls (the calls loop of create_user_op, src/builder.rs). -/
def encodeActionsGo (chain_id : ChainId) :
    List Action → Except EilError (List Call)
  | [] => .ok []
  | a :: rest => do
    let calls ← a chain_id
    let others ← encodeActionsGo chain_id rest
    .ok (calls ++ others)

/-- BatchBuilder::create_user_op (src/builder.rs): encode the actions (the
result is currently discarded and call_data left empty), then build a
UserOperation with the default gas and fee values. -/
def BatchBuilder.create_user_op (bb : BatchBuilder) (env : NetworkEnvironment) :
    Except EilError UserOperation := do
  let _calls ← encodeActionsGo bb.chain_id bb.actions
  let entry_point ← env.entry_point bb.chain_id
  .ok { sender := 0
        nonce := 0
        factory := none
        factory_data := none
        call_data := []
        call_gas_limit := 3000000
        verification_gas_limit := 500000
        pre_verification_gas := 100000
        max_fee_per_gas := 1000000000
        max_priority_fee_per_gas := 1000000000
        paymaster := none
        paymaster_verification_gas_limit := none
        paymaster_post_op_gas_limit := none
        paymaster_data := none
        paymaster_signature := none
        signature := []
        chain_id := some bb.chain_id
        entry_point_address := some entry_point }

/-- The keccak-256 digest of 32 zero bytes, the placeholder that
compute_user_op_hash (src/builder.rs) hashes. -/
def keccak256_zero32 : Hex :=
  [0x29, 0x0d, 0xec, 0xd9, 0x54, 0x8b, 0x62, 0xa8,
   0xd6, 0x03, 0x45, 0xa9, 0x88, 0x38, 0x6f, 0xc8,
   0x4b, 0xa6, 0xbc, 0x95, 0x48, 0x40, 0x08, 0xf6,
   0x36, 0x2f, 0x93, 0x16, 0x0e, 0xf3, 0xe5, 0x63]

/-- compute_user_op_hash (src/builder.rs): keccak256 over a fixed 32-zero
placeholder, independent of the operation. -/
def compute_user_op_hash (_user_op : UserOperation) : Except EilError Hex :=
  .ok keccak256_zero32

/-- BatchBuilder::build_single_chain_batch (src/builder.rs). -/
def BatchBuilder.build_single_chain_batch (bb : BatchBuilder)
    (env : NetworkEnvironment) : Except EilError SingleChainBatch := do
  let user_op ← bb.create_user_op env
  let user_op_hash ← compute_user_op_hash user_op
  .ok { user_op := user_op
        user_op_hash := user_op_hash
        chain_id := bb.chain_id
        input_voucher_requests := bb.input_vouchers
        out_voucher_requests := bb.output_vouchers }

/-- The per-batch loop of build_single_chain_batches (src/builder.rs). -/
def buildBatchesGo (env : NetworkEnvironment) :
    List BatchBuilder → Except EilError (List SingleChainBatch)
  | [] => .ok []
  | bb :: rest => do
    let batch ← bb.build_single_chain_batch env
    let others ← buildBatchesGo env rest
    .ok (batch :: others)

/-- CrossChainBuilder::build_single_chain_batches (src/builder.rs): refuse a
built builder, run the two coordinator phases, validate consumption, then
build every batch; the updated builder is returned alongside the batches
(&mut self in Rust). -/
def CrossChainBuilder.build_single_chain_batches (b : CrossChainBuilder)
    (now_seconds : Nat) :
    Except Fail (List SingleChainBatch × CrossChainBuilder) := do
  let _ ← liftE (if b.is_built then
                   Except.error EilError.builderAlreadyBuilt
                 else .ok ())
  let c2 ← b.build_phases now_seconds
  let _ ← liftE c2.validate_all_consumed
  let batches ← liftE (buildBatchesGo b.network_env b.batches)
  .ok (batches, { b with coordinator := c2 })

/-- CrossChainExecutor (src/executor.rs). -/
structure CrossChainExecutor where
  network_env : NetworkEnvironment
  batches : List SingleChainBatch
  timeout_seconds : Nat

/-- CrossChainBuilder::build_and_sign (src/builder.rs): build, sign every
user operation in one call, splice the signatures back batchwise, and seal
the builder into an executor. -/
def CrossChainBuilder.build_and_sign (b : CrossChainBuilder)
    (now_seconds : Nat) : Except Fail CrossChainExecutor := do
  let (batches, b2) ← b.build_single_chain_batches now_seconds
  let account ←
    liftE (match b2.account with
           | some a => .ok a
           | none => .error EilError.accountNotSet)
  let signed_user_ops ← liftE (account.sign_user_ops (batches.map (·.user_op)))
  let signed_batches :=
    List.zipWith (fun batch op => { batch with user_op := op }) batches
      signed_user_ops
  .ok { network_env := b2.network_env
        batches := signed_batches
        timeout_seconds := b2.network_env.config.exec_timeout_seconds }

/-- OperationStatus (src/types.rs). -/
inductive OperationStatus where
  | pending
  | executing
  | done
  | failed
deriving DecidableEq, Repr

/-- CallbackType (src/executor.rs). -/
inductive CallbackType where
  | executing
  | done
  | failed
  | waitingForVouchers
  | voucherIssued
deriving DecidableEq, Repr

/-- ExecCallbackData (src/executor.rs). -/
structure ExecCallbackData where
  index : Nat
  callback_type : CallbackType
  user_op_hash : Hex
  tx_hash : Option Hex
  request_ids : Option (List Hex)
  revert_reason : Option String
  input_voucher_requests : List SdkVoucherRequest
  out_voucher_requests : List SdkVoucherRequest
deriving DecidableEq, Repr

/-- BatchStatusInfo (src/contract_types.rs).  The voucher accumulator is a
map only ever created empty by the modelled code, kept as an association
list. -/
structure BatchStatusInfo where
  index : Nat
  batch : SingleChainBatch
  status : OperationStatus
  vouchers : List (String × Voucher)
  request_ids : Option (List Hex)
  tx_hash : Option Hex
  revert_reason : Option String
deriving DecidableEq, Repr

/-- The initial status table of execute (src/executor.rs lines 81-94). -/
def initBatchStatuses (batches : List SingleChainBatch) : List BatchStatusInfo :=
  (batches.enum).map (fun p =>
    { index := p.1
      batch := p.2
      status := .pending
      vouchers := []
      request_ids := none
      tx_hash := none
      revert_reason := none })

/-- CrossChainExecutor::is_waiting_for_vouchers (src/executor.rs): the body
loops over the input voucher requests doing nothing and returns false
(vouchers are assumed ready). -/
def is_waiting_for_vouchers (_batch : BatchStatusInfo) : Bool :=
  false

/-- CrossChainExecutor::find_ready_batch (src/executor.rs): the first
Pending batch that is not waiting for vouchers. -/
def find_ready_batch (batches : List BatchStatusInfo) : Option BatchStatusInfo :=
  batches.find? (fun b => b.status == .pending && !(is_waiting_for_vouchers b))

/-- CrossChainExecutor::execute_single_batch (src/executor.rs): fires the
Executing callback, then (submission being a placeholder that assumes
success) the Done callback.  The status table is not touched. -/
def execute_single_batch_callbacks (b : BatchStatusInfo) : List ExecCallbackData :=
  [{ index := b.index
     callback_type := .executing
     user_op_hash := b.batch.user_op_hash
     tx_hash := none
     request_ids := none
     revert_reason := none
     input_voucher_requests := b.batch.input_voucher_requests
     out_voucher_requests := b.batch.out_voucher_requests },
   { index := b.index
     callback_type := .done
     user_op_hash := b.batch.user_op_hash
     tx_hash := some []
     request_ids := none
     revert_reason := none
     input_voucher_requests := b.batch.input_voucher_requests
     out_voucher_requests := b.batch.out_voucher_requests }]

/-- The execution loop of execute (src/executor.rs lines 100-122).  Real
time is abstracted by clock, the wall-clock seconds elapsed at the start of
iteration k; fuel bounds the number of iterations unrolled and none means
the loop was still running after that many iterations.  The status table is
threaded unchanged because no statement of the loop body mutates it. -/
def executeLoop (clock : Nat → Nat) (timeout_seconds : Nat)
    (statuses : List BatchStatusInfo) :
    Nat → Nat → List ExecCallbackData →
    Option (Except EilError Unit × List ExecCallbackData)
  | _, 0, _ => none
  | k, fuel + 1, trace =>
    if clock k > timeout_seconds then
      some (.error (.executionTimeout timeout_seconds), trace)
    else if statuses.all (fun b => b.status == .done || b.status == .failed) then
      some (.ok (), trace)
    else
      match find_ready_batch statuses with
      | some b =>
        executeLoop clock timeout_seconds statuses (k + 1) fuel
          (trace ++ execute_single_batch_callbacks b)
      | none => executeLoop clock timeout_seconds statuses (k + 1) fuel trace

/-- CrossChainExecutor::execute (src/executor.rs): reject any unsigned
user operation, then run the loop on the freshly initialised status table.
The callback is modelled by accumulating the data it would be invoked
with, in order. -/
def CrossChainExecutor.execute (e : CrossChainExecutor) (clock : Nat → Nat)
    (fuel : Nat) : Option (Except EilError Unit × List ExecCallbackData) :=
  if e.batches.any (fun b => b.user_op.signature.isEmpty) then
    some (.error .userOpNotSigned, [])
  else
    executeLoop clock e.timeout_seconds (initBatchStatuses e.batches) 0 fuel []

/-- CrossChainExecutor::new (src/executor.rs): the timeout is read from the
configuration. -/
def CrossChainExecutor.mk_new (env : NetworkEnvironment)
    (batches : List SingleChainBatch) : CrossChainExecutor :=
  { network_env := env
    batches := batches
    timeout_seconds := env.config.exec_timeout_seconds }

/- Concrete collaborators and inputs used by the counterexamples and
witnesses below.  The hash-state functions are possible outcomes of the
seeded RandomState a Rust HashMap::new draws: hash0 lands every key at the
same table position (so the arrangement keeps insertion order), while
hashSwap lands the key vB before every other key. -/

/-- A seed outcome placing all keys at one position. -/
def hash0 : String → Nat := fun _ => 0

/-- A seed outcome placing the key vB ahead of every other key. -/
def hashSwap : String → Nat := fun s => if s == "vB" then 0 else 1

/-- A voucher request vA from chain 1 to chain 10, no tokens. -/
def reqA : SdkVoucherRequest :=
  { ref_id := "vA", source_chain_id := some 1, destination_chain_id := 10
    tokens := [], target := none }

/-- A voucher request vB from chain 1 to chain 10, no tokens. -/
def reqB : SdkVoucherRequest :=
  { ref_id := "vB", source_chain_id := some 1, destination_chain_id := 10
    tokens := [], target := none }

/-- The coordinator entry that registering reqA at batch 0 creates. -/
def infoA : InternalVoucherInfo :=
  { voucher := reqA, source_batch_index := 0, dest_batch_index := none
    voucher_request := none, allowed_xlps := none, signed_voucher := none }

/-- The coordinator holding exactly the entry for reqA, under hashSwap. -/
def coordA : VoucherCoordinator :=
  ⟨hashSwap, [("vA", infoA)]⟩

/-- Chain 1 configuration used by the examples. -/
def chainInfo1 : ChainInfo :=
  { chain_id := 1, rpc_url := "http://localhost:8545", entry_point := 0xE1
    paymaster := 0xA1, bundler_url := none }

/-- Chain 10 configuration used by the examples. -/
def chainInfo10 : ChainInfo :=
  { chain_id := 10, rpc_url := "http://localhost:8546", entry_point := 0xE2
    paymaster := 0xA2, bundler_url := none }

/-- The default fee configuration, carried by its numerators
(0.001, 0.05, 0.0001, 0.001 percent convert to 10, 500, 1, 10). -/
def feeCfgC : FeeConfig :=
  { start_fee_percent_numerator := 10, max_fee_percent_numerator := 500
    fee_increase_per_second_numerator := 1
    unspent_voucher_fee_percent_numerator := 10 }

/-- A configuration supporting chains 1 and 10 with the default windows. -/
def cfgC : CrossChainConfig :=
  { expire_time_seconds := 60, exec_timeout_seconds := 30
    fee_config := feeCfgC, chain_infos := [chainInfo1, chainInfo10] }

/-- The network environment over cfgC. -/
def envC : NetworkEnvironment := ⟨cfgC⟩

/-- A smart account deployed on chains 1 and 10 whose bulk signing fills
every signature with a single byte. -/
def acctC : MultiChainSmartAccount :=
  { address_on := fun chain_id =>
      if chain_id == 1 then .ok 0xAC1
      else if chain_id == 10 then .ok 0xAC10
      else .error (.unsupportedChain chain_id)
    sign_user_ops := fun ops =>
      .ok (ops.map (fun op => { op with signature := [1] })) }

/-- A fresh builder over envC with the account bound, under the hash0
arrangement. -/
def builderStart : CrossChainBuilder :=
  { network_env := envC
    batches := []
    coordinator := VoucherCoordinator.new hash0
    account := some acctC
    is_built := false }

/-- A voucher request whose destination chain 99 is not configured; the
target is set so translation reaches the paymaster lookups. -/
def reqBad : SdkVoucherRequest :=
  { ref_id := "v1", source_chain_id := some 1, destination_chain_id := 99
    tokens := [], target := some 7 }

/-- The coordinator entry for reqBad produced by batch 0, unconsumed. -/
def infoBad : InternalVoucherInfo :=
  { voucher := reqBad, source_batch_index := 0, dest_batch_index := none
    voucher_request := none, allowed_xlps := none, signed_voucher := none }

/-- The batch that produced reqBad. -/
def batchBad : BatchBuilder :=
  { chain_id := 1, batch_index := 0, actions := [], input_vouchers := []
    output_vouchers := [reqBad], vars := [], user_op_overrides := none }

/-- A builder holding one registered, unconsumed voucher whose destination
chain is not configured. -/
def builderBad : CrossChainBuilder :=
  { network_env := envC
    batches := [batchBad]
    coordinator := ⟨hash0, [("v1", infoBad)]⟩
    account := some acctC
    is_built := false }

/-- A signed user operation for the executor examples. -/
def uoSigned : UserOperation :=
  { sender := 0, nonce := 0, factory := none, factory_data := none
    call_data := [], call_gas_limit := 3000000
    verification_gas_limit := 500000, pre_verification_gas := 100000
    max_fee_per_gas := 1000000000, max_priority_fee_per_gas := 1000000000
    paymaster := none, paymaster_verification_gas_limit := none
    paymaster_post_op_gas_limit := none, paymaster_data := none
    paymaster_signature := none, signature := [1], chain_id := some 1
    entry_point_address := some 0xE1 }

/-- Executor batch 0 on chain 1, no cross-batch vouchers, signed. -/
def batchE0 : SingleChainBatch :=
  { user_op := uoSigned, user_op_hash := [0xAA], chain_id := 1
    input_voucher_requests := [], out_voucher_requests := [] }

/-- Executor batch 1 on chain 10, no cross-batch vouchers, signed. -/
def batchE1 : SingleChainBatch :=
  { user_op := { uoSigned with chain_id := some 10 }, user_op_hash := [0xBB]
    chain_id := 10, input_voucher_requests := [], out_voucher_requests := [] }

/-- An executor over the two independent signed batches with a one-second
execution budget. -/
def execC : CrossChainExecutor :=
  CrossChainExecutor.mk_new
    ⟨{ cfgC with exec_timeout_seconds := 1 }⟩ [batchE0, batchE1]

/-- The Executing callback the executor fires for batch 0. -/
def cbE0 : ExecCallbackData :=
  { index := 0, callback_type := .executing, user_op_hash := [0xAA]
    tx_hash := none, request_ids := none, revert_reason := none
    input_voucher_requests := [], out_voucher_requests := [] }

/-- The Done callback the executor fires for batch 0. -/
def cbD0 : ExecCallbackData :=
  { index := 0, callback_type := .done, user_op_hash := [0xAA]
    tx_hash := some [], request_ids := none, revert_reason := none
    input_voucher_requests := [], out_voucher_requests := [] }

/-- A voucher request v1 to chain 10 with the source left unset, as a user
would pass it to add_voucher_request. -/
def reqTen : SdkVoucherRequest :=
  { ref_id := "v1", source_chain_id := none, destination_chain_id := 10
    tokens := [], target := none }

/-- A voucher request v1 whose destination equals the chain of the batch it
is added to. -/
def reqSame : SdkVoucherRequest :=
  { ref_id := "v1", source_chain_id := none, destination_chain_id := 1
    tokens := [], target := none }

/-- A second voucher request reusing the ref_id v1, destined for chain 1. -/
def reqDup : SdkVoucherRequest :=
  { ref_id := "v1", source_chain_id := none, destination_chain_id := 1
    tokens := [], target := none }

/-- The builder-surface run that registers reqTen from a batch on chain 1. -/
def c10ops : List BuilderOp :=
  [.startBatch 1, .addVoucherRequest reqTen, .endBatch]

/-- reqTen after add_voucher_request stamped the batch chain on it. -/
def reqTen1 : SdkVoucherRequest := { reqTen with source_chain_id := some 1 }

/-- The builder state the run c10ops reaches. -/
def c10state : CrossChainBuilder :=
  { network_env := envC
    batches := [{ chain_id := 1, batch_index := 0, actions := []
                  input_vouchers := [], output_vouchers := [reqTen1]
                  vars := [], user_op_overrides := none }]
    coordinator := ⟨hash0, [("v1",
      { voucher := reqTen1, source_batch_index := 0, dest_batch_index := none
        voucher_request := none, allowed_xlps := none, signed_voucher := none })]⟩
    account := some acctC
    is_built := false }

/-- Whether a failure is a VoucherNotConsumed error. -/
def failIsVoucherNotConsumed : Fail → Bool
  | .err (.voucherNotConsumed _ _) => true
  | _ => false

/-- Whether a build result is a VoucherNotConsumed error. -/
def resultNotConsumed {α : Type} : Except Fail α → Bool
  | .error f => failIsVoucherNotConsumed f
  | .ok _ => false

/-- The builder state right after new + use_account, under a given hash
state and account. -/
def initReady (env : NetworkEnvironment) (h : String → Nat)
    (acct : MultiChainSmartAccount) : CrossChainBuilder :=
  { network_env := env
    batches := []
    coordinator := VoucherCoordinator.new h
    account := some acct
    is_built := false }

/-- A coordinator entry points at its producing batch: the batch at its
source_batch_index exists and stamped its chain id into the voucher. -/
def srcOk (batches : List BatchBuilder) (info : InternalVoucherInfo) : Prop :=
  match batches.get? info.source_batch_index with
  | some bb => info.voucher.source_chain_id = some bb.chain_id
  | none => False

/-- Builder invariant between batches: every coordinator entry points at
its producing batch. -/
def InvReady (b : CrossChainBuilder) : Prop :=
  ∀ p ∈ b.coordinator.entries, srcOk b.batches p.2

/-- Builder invariant inside a batch: the parent satisfies InvReady, the
open batch sits at the next index, and every pending output voucher already
carries this batch chain. -/
def InvBatch (ab : ActiveBatch) : Prop :=
  InvReady ab.parent ∧
  ab.batch.batch_index = ab.parent.batches.length ∧
  ∀ v ∈ ab.batch.output_vouchers, v.source_chain_id = some ab.batch.chain_id

/-- Builder invariant over either state shape. -/
def InvSt : BuilderState → Prop
  | .ready b => InvReady b
  | .inBatch ab => InvBatch ab

/-- A voucher request v1 from chain 1 to the supported chain 10, with a
target set. -/
def reqGood : SdkVoucherRequest :=
  { ref_id := "v1", source_chain_id := some 1, destination_chain_id := 10
    tokens := [], target := some 7 }

/-- The coordinator entry for reqGood produced by batch 0, unconsumed. -/
def infoGood : InternalVoucherInfo :=
  { voucher := reqGood, source_batch_index := 0, dest_batch_index := none
    voucher_request := none, allowed_xlps := none, signed_voucher := none }

/-- The batch that produced reqGood. -/
def batchGood : BatchBuilder :=
  { chain_id := 1, batch_index := 0, actions := [], input_vouchers := []
    output_vouchers := [reqGood], vars := [], user_op_overrides := none }

/-- A builder holding one registered, unconsumed voucher whose translation
succeeds. -/
def builderGood : CrossChainBuilder :=
  { network_env := envC
    batches := [batchGood]
    coordinator := ⟨hash0, [("v1", infoGood)]⟩
    account := some acctC
    is_built := false }

/-- The coordinator that the build phases of builderGood produce. -/
def cGood : VoucherCoordinator :=
  match builderGood.build_phases 0 with
  | .ok c => c
  | .error _ => builderGood.coordinator

/-- C1 counterexample: under the table arrangement hashSwap, registering vA
then vB makes all_vouchers yield vB before vA — iteration is not in
registration order. -/
theorem all_vouchers_not_insertion_ordered :
    ((VoucherCoordinator.new hashSwap).register reqA 0 >>=
        fun c => c.register reqB 1).map
      (fun c => c.all_vouchers.map (fun i => i.voucher.ref_id)) =
      .ok ["vB", "vA"] ∧ (["vB", "vA"] : List String) ≠ ["vA", "vB"] :=
  ⟨rfl, by decide⟩

/-- C2: on two signed, independent batches the executor re-executes batch 0
on every tick (its status is never advanced), so Executing and Done fire
twice for index 0, never for index 1, and execute returns ExecutionTimeout
instead of success. -/
theorem execute_restarts_batches_and_times_out :
    execC.execute (fun k => k) 4 =
      some (.error (.executionTimeout 1), [cbE0, cbD0, cbE0, cbD0]) ∧
    [cbE0, cbD0, cbE0, cbD0].count cbE0 = 2 ∧
    ([cbE0, cbD0, cbE0, cbD0].filter (fun cb => cb.index == 1)) = [] :=
  ⟨rfl, by decide, by decide⟩

/-- C5 counterexample: when two batches each add a voucher request with the
ref_id v1, the second end_batch panics (the expect in end_batch) instead of
returning DuplicateVoucher. -/
theorem end_batch_duplicate_panics :
    runBuilder (.ready builderStart)
      [.startBatch 1, .addVoucherRequest reqTen, .endBatch,
       .startBatch 10, .addVoucherRequest reqDup, .endBatch] =
      .error (.panicked "Failed to register voucher") ∧
    Fail.panicked "Failed to register voucher" ≠
      Fail.err (.duplicateVoucher "v1") :=
  ⟨rfl, by decide⟩

/-- C7: a voucher request whose destination chain equals the batch chain is
accepted by add_voucher_request and registered by end_batch, so the
coordinator holds an entry with source_chain_id = destination_chain_id;
SameChainVoucher is never raised. -/
theorem add_voucher_request_same_chain_accepted :
    (runBuilder (.ready builderStart)
        [.startBatch 1, .addVoucherRequest reqSame, .endBatch]).map
      (fun st =>
        match st with
        | .ready b =>
          (b.coordinator.find "v1").map
            (fun i => (i.voucher.source_chain_id, i.voucher.destination_chain_id))
        | .inBatch _ => none) =
      .ok (some (some 1, 1)) :=
  rfl

/-- C8 counterexample: set_allowed_xlps overwrites a previously stored
value, so the field is not write-once. -/
theorem set_allowed_xlps_overwrites :
    ((VoucherCoordinator.new hash0).register reqA 0 >>=
        fun c => c.set_allowed_xlps "vA" [5] >>= fun c => c.get "vA") =
      .ok { infoA with allowed_xlps := some [5] } ∧
    ((VoucherCoordinator.new hash0).register reqA 0 >>=
        fun c => c.set_allowed_xlps "vA" [5] >>=
        fun c => c.set_allowed_xlps "vA" [6] >>= fun c => c.get "vA") =
      .ok { infoA with allowed_xlps := some [6] } ∧
    (some [6] : Option (List Address)) ≠ some [5] :=
  ⟨rfl, rfl, by decide⟩

/-- C3 counterexample: builderBad holds one registered voucher with
dest_batch_index = None, yet build_single_chain_batches fails with
UnsupportedChain 99 (raised by the translation phase that runs before
validate_all_consumed), not with VoucherNotConsumed. -/
theorem build_unconsumed_error_not_voucher_not_consumed :
    builderBad.coordinator.find "v1" = some infoBad ∧
    infoBad.dest_batch_index = none ∧
    builderBad.build_single_chain_batches 0 =
      .error (.err (.unsupportedChain 99)) ∧
    ∀ r cid, EilError.unsupportedChain 99 ≠ EilError.voucherNotConsumed r cid :=
  ⟨rfl, rfl, rfl, fun _ _ h => EilError.noConfusion h⟩

/-- Looking up a freshly placed key finds the new entry when the key was
absent. -/
theorem findEntry_insertByPos_self (h : String → Nat) (k : String)
    (v : InternalVoucherInfo) (l : List (String × InternalVoucherInfo))
    (habs : findEntry k l = none) :
    findEntry k (insertByPos h k v l) = some v := by
  induction l with
  | nil => simp [insertByPos, findEntry]
  | cons p rest ih =>
    simp only [findEntry] at habs
    by_cases hp : (p.1 == k) = true
    · simp [hp] at habs
    · simp only [insertByPos]
      by_cases hlt : h k < h p.1
      · simp [hlt, findEntry]
      · simp only [if_neg hlt, findEntry, hp, if_false]
        exact ih (by simpa [hp] using habs)

/-- Looking up a different key is unaffected by a placement. -/
theorem findEntry_insertByPos_ne (h : String → Nat) (k : String)
    (v : InternalVoucherInfo) (l : List (String × InternalVoucherInfo))
    (r : String) (hne : r ≠ k) :
    findEntry r (insertByPos h k v l) = findEntry r l := by
  have hkr : (k == r) = false := by
    simpa [beq_iff_eq] using fun hh => hne hh.symm
  induction l with
  | nil => simp [insertByPos, findEntry, hkr]
  | cons p rest ih =>
    simp only [insertByPos]
    by_cases hlt : h k < h p.1
    · simp [hlt, findEntry, hkr]
    · simp only [if_neg hlt, findEntry]
      by_cases hp : (p.1 == r) = true
      · simp [hp]
      · simp [hp, ih]

/-- A placement is a permutation of consing the new entry. -/
theorem insertByPos_perm (h : String → Nat) (k : String)
    (v : InternalVoucherInfo) (l : List (String × InternalVoucherInfo)) :
    (insertByPos h k v l).Perm ((k, v) :: l) := by
  induction l with
  | nil => simp [insertByPos]
  | cons p rest ih =>
    simp only [insertByPos]
    by_cases hlt : h k < h p.1
    · simp [hlt]
    · simp only [if_neg hlt]
      exact (ih.cons p).trans (List.Perm.swap (k, v) p rest)

/-- Every element of a placement is the new entry or an old one. -/
theorem mem_insertByPos (h : String → Nat) (k : String)
    (v : InternalVoucherInfo) (l : List (String × InternalVoucherInfo))
    (p : String × InternalVoucherInfo) (hp : p ∈ insertByPos h k v l) :
    p = (k, v) ∨ p ∈ l :=
  List.mem_cons.mp ((insertByPos_perm h k v l).mem_iff.mp hp)

/-- Lookup of the modified key maps the stored entry. -/
theorem findEntry_modify_self (k : String)
    (f : InternalVoucherInfo → InternalVoucherInfo)
    (l : List (String × InternalVoucherInfo)) :
    findEntry k (l.map (modEntry k f)) = (findEntry k l).map f := by
  induction l with
  | nil => simp [findEntry]
  | cons p rest ih =>
    cases hp : p.1 == k with
    | true => simp [findEntry, modEntry, hp]
    | false =>
      simp only [List.map_cons, modEntry, hp, Bool.false_eq_true, if_false,
        findEntry]
      exact ih

/-- Lookup of a different key is unaffected by a keyed modification. -/
theorem findEntry_modify_ne (k : String)
    (f : InternalVoucherInfo → InternalVoucherInfo)
    (l : List (String × InternalVoucherInfo)) (r : String) (hne : r ≠ k) :
    findEntry r (l.map (modEntry k f)) = findEntry r l := by
  induction l with
  | nil => simp [findEntry]
  | cons p rest ih =>
    cases hp : p.1 == k with
    | true =>
      have hpr : (p.1 == r) = false := by
        have h1 : p.1 = k := by simpa [beq_iff_eq] using hp
        simpa [beq_iff_eq, h1] using fun hh => hne hh.symm
      simp only [List.map_cons, modEntry, hp, if_true, findEntry, hpr,
        Bool.false_eq_true, if_false]
      exact ih
    | false =>
      cases hpr : p.1 == r with
      | true =>
        simp [findEntry, modEntry, hp, hpr]
      | false =>
        simp only [List.map_cons, modEntry, hp, Bool.false_eq_true, if_false,
          findEntry, hpr]
        exact ih

/-- find after modifyEntry at the same key. -/
theorem find_modifyEntry_self (c : VoucherCoordinator) (k : String)
    (f : InternalVoucherInfo → InternalVoucherInfo) :
    (c.modifyEntry k f).find k = (c.find k).map f :=
  findEntry_modify_self k f c.entries

/-- find after modifyEntry at a different key. -/
theorem find_modifyEntry_ne (c : VoucherCoordinator) (k : String)
    (f : InternalVoucherInfo → InternalVoucherInfo) (r : String) (hne : r ≠ k) :
    (c.modifyEntry k f).find r = c.find r := by
  exact findEntry_modify_ne k f c.entries r hne

/-- A field projection untouched by the modification is preserved at every
key. -/
theorem find_modifyEntry_proj {α : Type} (c : VoucherCoordinator) (k : String)
    (f : InternalVoucherInfo → InternalVoucherInfo)
    (g : InternalVoucherInfo → α) (hf : ∀ j, g (f j) = g j) (r : String) :
    ((c.modifyEntry k f).find r).map g = (c.find r).map g := by
  by_cases hr : r = k
  · subst hr
    rw [find_modifyEntry_self]
    cases c.find r <;> simp [hf]
  · rw [find_modifyEntry_ne c k f r hr]

/-- A successful find names an entry of the table. -/
theorem findEntry_mem (r : String) (l : List (String × InternalVoucherInfo))
    (i : InternalVoucherInfo) (hf : findEntry r l = some i) : (r, i) ∈ l := by
  induction l with
  | nil => simp [findEntry] at hf
  | cons p rest ih =>
    by_cases hp : (p.1 == r) = true
    · have h1 : p.1 = r := by simpa [beq_iff_eq] using hp
      have h2 : p.2 = i := by simpa [findEntry, hp] using hf
      obtain ⟨a, b⟩ := p
      simp only at h1 h2
      subst h1
      subst h2
      exact List.mem_cons_self _ _
    · exact List.mem_cons_of_mem _ (ih (by simpa [findEntry, hp] using hf))

/-- C4: registering a ref_id not yet present succeeds, and get then yields
the entry in its initial state: the given voucher and source batch index,
with dest_batch_index, voucher_request, allowed_xlps and signed_voucher all
None. -/
theorem register_fresh_initial_state (c : VoucherCoordinator)
    (v : SdkVoucherRequest) (s : Nat) (habs : c.find v.ref_id = none) :
    (c.register v s >>= fun c2 => c2.get v.ref_id) =
      .ok { voucher := v, source_batch_index := s, dest_batch_index := none
            voucher_request := none, allowed_xlps := none
            signed_voucher := none } := by
  have hc : c.contains_key v.ref_id = false := by
    simp [VoucherCoordinator.contains_key, habs]
  simp only [VoucherCoordinator.register, hc, Bool.false_eq_true, if_false]
  have hfind :
      findEntry v.ref_id
        (insertByPos c.hashPos v.ref_id
          { voucher := v, source_batch_index := s, dest_batch_index := none
            voucher_request := none, allowed_xlps := none
            signed_voucher := none } c.entries) =
        some { voucher := v, source_batch_index := s, dest_batch_index := none
               voucher_request := none, allowed_xlps := none
               signed_voucher := none } :=
    findEntry_insertByPos_self _ _ _ _ habs
  simp [VoucherCoordinator.get, VoucherCoordinator.find, hfind, bind,
    Except.bind]

/-- Witness for C4 at a concrete fresh coordinator. -/
theorem register_fresh_initial_state_witness :
    ((VoucherCoordinator.new hashSwap).register reqA 0 >>=
        fun c2 => c2.get reqA.ref_id) = .ok infoA :=
  register_fresh_initial_state (VoucherCoordinator.new hashSwap) reqA 0 rfl

/-- C1 amended: a successful register extends all_vouchers by exactly the
new initial entry, up to the table arrangement — iteration returns each
registered entry exactly once, but in hash order rather than registration
order. -/
theorem register_all_vouchers_perm (c : VoucherCoordinator)
    (v : SdkVoucherRequest) (s : Nat) (c2 : VoucherCoordinator)
    (h : c.register v s = .ok c2) :
    c2.all_vouchers.Perm
      ({ voucher := v, source_batch_index := s, dest_batch_index := none
         voucher_request := none, allowed_xlps := none
         signed_voucher := none } :: c.all_vouchers) := by
  by_cases hc : c.contains_key v.ref_id = true
  · simp [VoucherCoordinator.register, hc] at h
  · simp only [VoucherCoordinator.register, hc, Bool.false_eq_true, if_false,
      Except.ok.injEq] at h
    subst h
    simpa [VoucherCoordinator.all_vouchers] using
      (insertByPos_perm c.hashPos v.ref_id _ c.entries).map (·.2)

/-- Witness for the C1 amended statement at a concrete register call. -/
theorem register_all_vouchers_perm_witness :
    coordA.all_vouchers.Perm
      (infoA :: (VoucherCoordinator.new hashSwap).all_vouchers) :=
  register_all_vouchers_perm (VoucherCoordinator.new hashSwap) reqA 0 coordA rfl

/-- C5 amended: registering a ref_id that is already present fails with
DuplicateVoucher at the coordinator (leaving the map as it was), and
end_batch, which unwraps that result with expect, panics on it instead of
returning the error. -/
theorem register_duplicate_error :
    (∀ (c : VoucherCoordinator) (v : SdkVoucherRequest) (s : Nat)
        (i : InternalVoucherInfo), c.find v.ref_id = some i →
        c.register v s = .error (.duplicateVoucher v.ref_id)) ∧
    (∀ (ab : ActiveBatch) (v : SdkVoucherRequest) (i : InternalVoucherInfo),
        ab.batch.output_vouchers = [v] →
        ab.parent.coordinator.find v.ref_id = some i →
        ab.end_batch = .error (.panicked "Failed to register voucher")) := by
  constructor
  · intro c v s i h
    simp [VoucherCoordinator.register, VoucherCoordinator.contains_key, h]
  · intro ab v i hout h
    have hdup : ab.parent.coordinator.register v ab.batch.batch_index =
        .error (.duplicateVoucher v.ref_id) := by
      simp [VoucherCoordinator.register, VoucherCoordinator.contains_key, h]
    simp [ActiveBatch.end_batch, hout, registerOutputs, hdup, bind,
      Except.bind]

/-- Witness for C5 amended: the duplicate register on a concrete
coordinator. -/
theorem register_duplicate_error_witness :
    coordA.register reqA 1 = .error (.duplicateVoucher "vA") :=
  register_duplicate_error.1 coordA reqA 1 infoA rfl

/-- A successful register leaves the hash state and places the initial
entry. -/
theorem register_ok_eq (c : VoucherCoordinator) (v : SdkVoucherRequest)
    (s : Nat) (c2 : VoucherCoordinator) (h : c.register v s = .ok c2) :
    c.contains_key v.ref_id = false ∧
    c2 = ⟨c.hashPos,
      insertByPos c.hashPos v.ref_id
        { voucher := v, source_batch_index := s, dest_batch_index := none
          voucher_request := none, allowed_xlps := none
          signed_voucher := none } c.entries⟩ := by
  by_cases hc : c.contains_key v.ref_id = true
  · simp [VoucherCoordinator.register, hc] at h
  · simp only [VoucherCoordinator.register, hc, Bool.false_eq_true, if_false,
      Except.ok.injEq] at h
    exact ⟨by simpa using hc, h.symm⟩

/-- A successful mark_consumed is exactly the in-place dest update. -/
theorem mark_consumed_ok_eq (c : VoucherCoordinator) (r : String) (d : Nat)
    (c2 : VoucherCoordinator) (h : c.mark_consumed r d = .ok c2) :
    c2 = c.modifyEntry r (fun j => { j with dest_batch_index := some d }) := by
  unfold VoucherCoordinator.mark_consumed at h
  cases hf : c.find r with
  | none => simp only [hf] at h; exact absurd h (by simp)
  | some i =>
    simp only [hf] at h
    by_cases hd : i.dest_batch_index.isSome = true
    · rw [if_pos hd] at h; exact absurd h (by simp)
    · rw [if_neg hd] at h; injection h with h; exact h.symm

/-- A successful mark_consumed found an unconsumed entry. -/
theorem mark_consumed_ok_prev (c : VoucherCoordinator) (r : String) (d : Nat)
    (c2 : VoucherCoordinator) (h : c.mark_consumed r d = .ok c2) :
    ∃ i, c.find r = some i ∧ i.dest_batch_index = none := by
  unfold VoucherCoordinator.mark_consumed at h
  cases hf : c.find r with
  | none => simp only [hf] at h; exact absurd h (by simp)
  | some i =>
    simp only [hf] at h
    by_cases hd : i.dest_batch_index.isSome = true
    · rw [if_pos hd] at h; exact absurd h (by simp)
    · exact ⟨i, rfl, Option.not_isSome_iff_eq_none.mp hd⟩

/-- A successful set_voucher_request is exactly the in-place field update. -/
theorem set_voucher_request_ok_eq (c : VoucherCoordinator) (r : String)
    (vr : VoucherRequest) (c2 : VoucherCoordinator)
    (h : c.set_voucher_request r vr = .ok c2) :
    c2 = c.modifyEntry r (fun j => { j with voucher_request := some vr }) := by
  unfold VoucherCoordinator.set_voucher_request at h
  cases hf : c.find r with
  | none => simp only [hf] at h; exact absurd h (by simp)
  | some i => simp only [hf] at h; injection h with h; exact h.symm

/-- A successful set_allowed_xlps is exactly the in-place field update. -/
theorem set_allowed_xlps_ok_eq (c : VoucherCoordinator) (r : String)
    (xs : List Address) (c2 : VoucherCoordinator)
    (h : c.set_allowed_xlps r xs = .ok c2) :
    c2 = c.modifyEntry r (fun j => { j with allowed_xlps := some xs }) := by
  unfold VoucherCoordinator.set_allowed_xlps at h
  cases hf : c.find r with
  | none => simp only [hf] at h; exact absurd h (by simp)
  | some i => simp only [hf] at h; injection h with h; exact h.symm

/-- A successful set_signed_voucher is exactly the in-place field update. -/
theorem set_signed_voucher_ok_eq (c : VoucherCoordinator) (r : String)
    (sv : Voucher) (c2 : VoucherCoordinator)
    (h : c.set_signed_voucher r sv = .ok c2) :
    c2 = c.modifyEntry r (fun j => { j with signed_voucher := some sv }) := by
  unfold VoucherCoordinator.set_signed_voucher at h
  cases hf : c.find r with
  | none => simp only [hf] at h; exact absurd h (by simp)
  | some i => simp only [hf] at h; injection h with h; exact h.symm

/-- One coordinator operation never erases or changes an already recorded
dest_batch_index. -/
theorem dest_preserved_step (c : VoucherCoordinator) (r : String) (d : Nat)
    (i : InternalVoucherInfo) (h : c.find r = some i)
    (hd : i.dest_batch_index = some d) (op : CoordOp) :
    ∃ i2, (stepCoord c op).find r = some i2 ∧ i2.dest_batch_index = some d := by
  cases op with
  | reg v s =>
    cases hreg : c.register v s with
    | error e => exact ⟨i, by simpa [stepCoord, hreg] using h, hd⟩
    | ok c2 =>
      obtain ⟨hc, hc2⟩ := register_ok_eq c v s c2 hreg
      have hne : r ≠ v.ref_id := by
        intro he
        subst he
        simp [VoucherCoordinator.contains_key, h] at hc
      refine ⟨i, ?_, hd⟩
      have hfind : c2.find r = c.find r := by
        rw [hc2]
        exact findEntry_insertByPos_ne c.hashPos v.ref_id _ c.entries r hne
      simp [stepCoord, hreg, hfind, h]
  | mark r2 d2 =>
    cases hm : c.mark_consumed r2 d2 with
    | error e => exact ⟨i, by simpa [stepCoord, hm] using h, hd⟩
    | ok c2 =>
      obtain ⟨j, hj, hjnone⟩ := mark_consumed_ok_prev c r2 d2 c2 hm
      have hne : r ≠ r2 := by
        intro he
        subst he
        rw [h] at hj
        injection hj with hj
        subst hj
        rw [hd] at hjnone
        exact Option.noConfusion hjnone
      have hfind : c2.find r = c.find r := by
        rw [mark_consumed_ok_eq c r2 d2 c2 hm]
        exact find_modifyEntry_ne c r2 _ r hne
      exact ⟨i, by simp [stepCoord, hm, hfind, h], hd⟩
  | setVR r2 vr =>
    cases hs : c.set_voucher_request r2 vr with
    | error e => exact ⟨i, by simpa [stepCoord, hs] using h, hd⟩
    | ok c2 =>
      have hproj :
          (c2.find r).map (·.dest_batch_index) =
            (c.find r).map (·.dest_batch_index) := by
        rw [set_voucher_request_ok_eq c r2 vr c2 hs]
        exact find_modifyEntry_proj c r2
          (fun j => { j with voucher_request := some vr })
          (fun j => j.dest_batch_index) (fun j => rfl) r
      rw [h] at hproj
      cases hfind : c2.find r with
      | none => rw [hfind] at hproj; exact absurd hproj (by simp)
      | some i2 =>
        rw [hfind] at hproj
        refine ⟨i2, by simp [stepCoord, hs, hfind], ?_⟩
        rw [← hd]
        exact (by simpa using hproj)
  | setXlps r2 xs =>
    cases hs : c.set_allowed_xlps r2 xs with
    | error e => exact ⟨i, by simpa [stepCoord, hs] using h, hd⟩
    | ok c2 =>
      have hproj :
          (c2.find r).map (·.dest_batch_index) =
            (c.find r).map (·.dest_batch_index) := by
        rw [set_allowed_xlps_ok_eq c r2 xs c2 hs]
        exact find_modifyEntry_proj c r2
          (fun j => { j with allowed_xlps := some xs })
          (fun j => j.dest_batch_index) (fun j => rfl) r
      rw [h] at hproj
      cases hfind : c2.find r with
      | none => rw [hfind] at hproj; exact absurd hproj (by simp)
      | some i2 =>
        rw [hfind] at hproj
        refine ⟨i2, by simp [stepCoord, hs, hfind], ?_⟩
        rw [← hd]
        exact (by simpa using hproj)
  | setSigned r2 sv =>
    cases hs : c.set_signed_voucher r2 sv with
    | error e => exact ⟨i, by simpa [stepCoord, hs] using h, hd⟩
    | ok c2 =>
      have hproj :
          (c2.find r).map (·.dest_batch_index) =
            (c.find r).map (·.dest_batch_index) := by
        rw [set_signed_voucher_ok_eq c r2 sv c2 hs]
        exact find_modifyEntry_proj c r2
          (fun j => { j with signed_voucher := some sv })
          (fun j => j.dest_batch_index) (fun j => rfl) r
      rw [h] at hproj
      cases hfind : c2.find r with
      | none => rw [hfind] at hproj; exact absurd hproj (by simp)
      | some i2 =>
        rw [hfind] at hproj
        refine ⟨i2, by simp [stepCoord, hs, hfind], ?_⟩
        rw [← hd]
        exact (by simpa using hproj)

/-- use_voucher surfaces exactly the error of the underlying mark_consumed
call: the coordinator lookup after a successful mark cannot fail. -/
theorem use_voucher_error_iff (ab : ActiveBatch) (r : String) (e : EilError) :
    ab.use_voucher r = .error e ↔
      ab.parent.coordinator.mark_consumed r ab.batch.batch_index = .error e := by
  unfold ActiveBatch.use_voucher
  cases hm : ab.parent.coordinator.mark_consumed r ab.batch.batch_index with
  | error e2 => simp [hm, bind, Except.bind]
  | ok c2 =>
    obtain ⟨i, hi, hnone⟩ :=
      mark_consumed_ok_prev ab.parent.coordinator r ab.batch.batch_index c2 hm
    have hfind : c2.find r =
        some { i with dest_batch_index := some ab.batch.batch_index } := by
      rw [mark_consumed_ok_eq ab.parent.coordinator r ab.batch.batch_index c2 hm,
        find_modifyEntry_self, hi]
      rfl
    have hget : c2.get r =
        .ok { i with dest_batch_index := some ab.batch.batch_index } := by
      simp [VoucherCoordinator.get, hfind]
    simp [hm, bind, Except.bind, hget]

/-- C6: mark_consumed fails with VoucherNotFound exactly when the ref_id is
absent, with VoucherAlreadyUsed exactly when the entry is already consumed,
and otherwise records the destination index; a recorded dest_batch_index
survives every later sequence of coordinator operations unchanged
(write-once); and use_voucher surfaces exactly the mark_consumed errors. -/
theorem mark_consumed_spec :
    (∀ (c : VoucherCoordinator) (r : String) (d : Nat),
        c.mark_consumed r d = .error (.voucherNotFound r) ↔ c.find r = none) ∧
    (∀ (c : VoucherCoordinator) (r : String) (d : Nat),
        c.mark_consumed r d = .error (.voucherAlreadyUsed r) ↔
          ∃ i, c.find r = some i ∧ i.dest_batch_index.isSome = true) ∧
    (∀ (c : VoucherCoordinator) (r : String) (d : Nat)
        (i : InternalVoucherInfo), c.find r = some i →
        i.dest_batch_index = none →
        c.mark_consumed r d =
          .ok (c.modifyEntry r (fun j => { j with dest_batch_index := some d })) ∧
        (c.modifyEntry r
            (fun j => { j with dest_batch_index := some d })).find r =
          some { i with dest_batch_index := some d }) ∧
    (∀ (ops : List CoordOp) (c : VoucherCoordinator) (r : String) (d : Nat)
        (i : InternalVoucherInfo), c.find r = some i →
        i.dest_batch_index = some d →
        ∃ i2, (runCoord c ops).find r = some i2 ∧
          i2.dest_batch_index = some d) ∧
    (∀ (ab : ActiveBatch) (r : String) (e : EilError),
        ab.use_voucher r = .error e ↔
          ab.parent.coordinator.mark_consumed r ab.batch.batch_index =
            .error e) := by
  refine ⟨?_, ?_, ?_, ?_, use_voucher_error_iff⟩
  · intro c r d
    unfold VoucherCoordinator.mark_consumed
    cases hf : c.find r with
    | none => simp
    | some i =>
      by_cases hd : i.dest_batch_index.isSome = true
      · simp [hd]
      · simp [hd]
  · intro c r d
    unfold VoucherCoordinator.mark_consumed
    cases hf : c.find r with
    | none => simp
    | some i =>
      by_cases hd : i.dest_batch_index.isSome = true
      · simp [hd]
      · simp [hd]
  · intro c r d i hf hd
    have hds : i.dest_batch_index.isSome = false := by simp [hd]
    constructor
    · unfold VoucherCoordinator.mark_consumed
      simp [hf, hds]
    · rw [find_modifyEntry_self, hf]
      rfl
  · intro ops
    induction ops with
    | nil => intro c r d i h hd; exact ⟨i, h, hd⟩
    | cons op rest ih =>
      intro c r d i h hd
      obtain ⟨i2, h2, hd2⟩ := dest_preserved_step c r d i h hd op
      have hrun : runCoord c (op :: rest) = runCoord (stepCoord c op) rest := by
        simp [runCoord]
      rw [hrun]
      exact ih (stepCoord c op) r d i2 h2 hd2

/-- Witness for C6: mark_consumed on an empty coordinator reports
VoucherNotFound. -/
theorem mark_consumed_spec_witness :
    (VoucherCoordinator.new hash0).mark_consumed "ghost" 1 =
      .error (.voucherNotFound "ghost") :=
  (mark_consumed_spec.1 (VoucherCoordinator.new hash0) "ghost" 1).mpr rfl

/-- C8 amended: set_voucher_request, set_allowed_xlps and set_signed_voucher
each fail with VoucherNotFound when the ref_id is absent; when it is present
each stores the given value unconditionally, overwriting whatever the field
held — the fields are not write-once at the coordinator. -/
theorem setters_require_existing_ref :
    (∀ (c : VoucherCoordinator) (r : String) (vr : VoucherRequest),
        c.find r = none →
        c.set_voucher_request r vr = .error (.voucherNotFound r)) ∧
    (∀ (c : VoucherCoordinator) (r : String) (xs : List Address),
        c.find r = none →
        c.set_allowed_xlps r xs = .error (.voucherNotFound r)) ∧
    (∀ (c : VoucherCoordinator) (r : String) (sv : Voucher),
        c.find r = none →
        c.set_signed_voucher r sv = .error (.voucherNotFound r)) ∧
    (∀ (c : VoucherCoordinator) (r : String) (i : InternalVoucherInfo)
        (vr : VoucherRequest), c.find r = some i →
        c.set_voucher_request r vr =
          .ok (c.modifyEntry r (fun j => { j with voucher_request := some vr })) ∧
        (c.modifyEntry r
            (fun j => { j with voucher_request := some vr })).find r =
          some { i with voucher_request := some vr }) ∧
    (∀ (c : VoucherCoordinator) (r : String) (i : InternalVoucherInfo)
        (xs : List Address), c.find r = some i →
        c.set_allowed_xlps r xs =
          .ok (c.modifyEntry r (fun j => { j with allowed_xlps := some xs })) ∧
        (c.modifyEntry r
            (fun j => { j with allowed_xlps := some xs })).find r =
          some { i with allowed_xlps := some xs }) ∧
    (∀ (c : VoucherCoordinator) (r : String) (i : InternalVoucherInfo)
        (sv : Voucher), c.find r = some i →
        c.set_signed_voucher r sv =
          .ok (c.modifyEntry r (fun j => { j with signed_voucher := some sv })) ∧
        (c.modifyEntry r
            (fun j => { j with signed_voucher := some sv })).find r =
          some { i with signed_voucher := some sv }) := by
  refine ⟨?_, ?_, ?_, ?_, ?_, ?_⟩
  · intro c r vr h
    simp [VoucherCoordinator.set_voucher_request, h]
  · intro c r xs h
    simp [VoucherCoordinator.set_allowed_xlps, h]
  · intro c r sv h
    simp [VoucherCoordinator.set_signed_voucher, h]
  · intro c r i vr h
    refine ⟨by simp [VoucherCoordinator.set_voucher_request, h], ?_⟩
    rw [find_modifyEntry_self, h]
    rfl
  · intro c r i xs h
    refine ⟨by simp [VoucherCoordinator.set_allowed_xlps, h], ?_⟩
    rw [find_modifyEntry_self, h]
    rfl
  · intro c r i sv h
    refine ⟨by simp [VoucherCoordinator.set_signed_voucher, h], ?_⟩
    rw [find_modifyEntry_self, h]
    rfl

/-- Witness for C8 amended: set_allowed_xlps on an absent ref fails with
VoucherNotFound. -/
theorem setters_require_existing_ref_witness :
    (VoucherCoordinator.new hash0).set_allowed_xlps "vA" [5] =
      .error (.voucherNotFound "vA") :=
  setters_require_existing_ref.2.1 (VoucherCoordinator.new hash0) "vA" [5] rfl

/-- validate_all_consumed succeeds exactly when every entry of the table is
consumed. -/
theorem validateEntries_ok_iff (l : List (String × InternalVoucherInfo)) :
    validateEntries l = .ok () ↔
      ∀ p ∈ l, p.2.dest_batch_index.isSome = true := by
  induction l with
  | nil => simp [validateEntries]
  | cons p rest ih =>
    cases hdest : p.2.dest_batch_index with
    | none => simp [validateEntries, hdest]
    | some dd => simp [validateEntries, hdest, ih]

/-- When validate_all_consumed does not succeed it reports some
VoucherNotConsumed error. -/
theorem validateEntries_err_shape (l : List (String × InternalVoucherInfo))
    (h : validateEntries l ≠ .ok ()) :
    ∃ r cid, validateEntries l = .error (.voucherNotConsumed r cid) := by
  induction l with
  | nil => simp [validateEntries] at h
  | cons p rest ih =>
    cases hdest : p.2.dest_batch_index with
    | none =>
      exact ⟨p.1, p.2.voucher.source_chain_id.getD 0,
        by simp [validateEntries, hdest]⟩
    | some dd =>
      have hrest : validateEntries rest ≠ .ok () := by
        simpa [validateEntries, hdest] using h
      simpa [validateEntries, hdest] using ih hrest

/-- The XLP collection loop never touches dest_batch_index. -/
theorem collectXlpsGo_dest (refs : List String) :
    ∀ (c c2 : VoucherCoordinator), collectXlpsGo c refs = .ok c2 →
      ∀ r, (c2.find r).map (·.dest_batch_index) =
        (c.find r).map (·.dest_batch_index) := by
  induction refs with
  | nil =>
    intro c c2 h r
    simp only [collectXlpsGo, Except.ok.injEq] at h
    rw [h]
  | cons r0 rest ih =>
    intro c c2 h r
    unfold collectXlpsGo at h
    cases hg : c.get r0 with
    | error e => simp [hg, bind, Except.bind] at h
    | ok info =>
      simp only [hg, bind, Except.bind, get_allowed_xlps] at h
      cases hs : c.set_allowed_xlps info.voucher.ref_id [] with
      | error e => simp [hs] at h
      | ok cm =>
        simp only [hs] at h
        have hstep : (cm.find r).map (·.dest_batch_index) =
            (c.find r).map (·.dest_batch_index) := by
          rw [set_allowed_xlps_ok_eq c info.voucher.ref_id [] cm hs]
          exact find_modifyEntry_proj c info.voucher.ref_id
            (fun j => { j with allowed_xlps := some [] })
            (fun j => j.dest_batch_index) (fun j => rfl) r
        rw [ih cm c2 h r, hstep]

/-- The voucher translation loop never touches dest_batch_index. -/
theorem buildVouchersGo_dest (env : NetworkEnvironment)
    (account : Option MultiChainSmartAccount) (now : Nat)
    (vs : List SdkVoucherRequest) :
    ∀ (c c2 : VoucherCoordinator), buildVouchersGo env account now c vs = .ok c2 →
      ∀ r, (c2.find r).map (·.dest_batch_index) =
        (c.find r).map (·.dest_batch_index) := by
  induction vs with
  | nil =>
    intro c c2 h r
    simp only [buildVouchersGo, Except.ok.injEq] at h
    rw [h]
  | cons v rest ih =>
    intro c c2 h r
    unfold buildVouchersGo at h
    cases hv : sdk_to_voucher_request env account c now v with
    | error e => simp [hv, bind, Except.bind] at h
    | ok vr =>
      simp only [hv, bind, Except.bind] at h
      cases hs : c.set_voucher_request v.ref_id vr with
      | error e => simp [hs, liftE] at h
      | ok cm =>
        simp only [hs, liftE] at h
        have hstep : (cm.find r).map (·.dest_batch_index) =
            (c.find r).map (·.dest_batch_index) := by
          rw [set_voucher_request_ok_eq c v.ref_id vr cm hs]
          exact find_modifyEntry_proj c v.ref_id
            (fun j => { j with voucher_request := some vr })
            (fun j => j.dest_batch_index) (fun j => rfl) r
        rw [ih cm c2 h r, hstep]

/-- The two build phases never touch dest_batch_index. -/
theorem build_phases_dest (b : CrossChainBuilder) (now : Nat)
    (c2 : VoucherCoordinator) (h : b.build_phases now = .ok c2) (r : String) :
    (c2.find r).map (·.dest_batch_index) =
      (b.coordinator.find r).map (·.dest_batch_index) := by
  unfold CrossChainBuilder.build_phases at h
  cases hc : b.collect_xlps_per_voucher with
  | error e => simp [hc, bind, Except.bind, liftE] at h
  | ok c1 =>
    simp only [hc, bind, Except.bind, liftE] at h
    rw [buildVouchersGo_dest b.network_env b.account now _ c1 c2 h r]
    exact collectXlpsGo_dest _ b.coordinator c1 hc r

/-- C3 amended: a builder holding an unconsumed registered voucher cannot
build — when the XLP-collection and translation phases succeed the failure
is VoucherNotConsumed (raised by validate_all_consumed and propagated by
build_single_chain_batches and build_and_sign, which then emit no batches);
and validate_all_consumed succeeds when every entry is consumed. -/
theorem build_fails_voucher_not_consumed :
    (∀ (b : CrossChainBuilder) (now : Nat) (c2 : VoucherCoordinator)
        (r : String) (i : InternalVoucherInfo),
        b.is_built = false →
        b.build_phases now = .ok c2 →
        b.coordinator.find r = some i →
        i.dest_batch_index = none →
        resultNotConsumed (b.build_single_chain_batches now) = true ∧
        resultNotConsumed (b.build_and_sign now) = true) ∧
    (∀ c : VoucherCoordinator,
        (∀ p ∈ c.entries, p.2.dest_batch_index.isSome = true) →
        c.validate_all_consumed = .ok ()) := by
  constructor
  · intro b now c2 r i hb hp hf hd
    have hview := build_phases_dest b now c2 hp r
    rw [hf] at hview
    cases hfind : c2.find r with
    | none => rw [hfind] at hview; exact absurd hview (by simp)
    | some i2 =>
      rw [hfind] at hview
      have hd2 : i2.dest_batch_index = none := by
        have hview2 : i2.dest_batch_index = i.dest_batch_index := by
          simpa using hview
        rw [hview2, hd]
      have hmem : (r, i2) ∈ c2.entries := findEntry_mem r c2.entries i2 hfind
      have hnok : validateEntries c2.entries ≠ .ok () := by
        intro hok
        have hall := (validateEntries_ok_iff c2.entries).mp hok (r, i2) hmem
        rw [hd2] at hall
        exact absurd hall (by simp)
      obtain ⟨r2, cid, herr⟩ := validateEntries_err_shape c2.entries hnok
      have hbuild : b.build_single_chain_batches now =
          .error (.err (.voucherNotConsumed r2 cid)) := by
        unfold CrossChainBuilder.build_single_chain_batches
        simp [hb, hp, bind, Except.bind, liftE,
          VoucherCoordinator.validate_all_consumed, herr]
      refine ⟨by simp [hbuild, resultNotConsumed, failIsVoucherNotConsumed], ?_⟩
      unfold CrossChainBuilder.build_and_sign
      simp [hbuild, bind, Except.bind, resultNotConsumed,
        failIsVoucherNotConsumed]
  · intro c hall
    unfold VoucherCoordinator.validate_all_consumed
    exact (validateEntries_ok_iff c.entries).mpr hall

/-- Witness for C3 amended at a builder whose phases succeed and whose only
voucher is unconsumed. -/
theorem build_fails_voucher_not_consumed_witness :
    resultNotConsumed (builderGood.build_single_chain_batches 0) = true ∧
    resultNotConsumed (builderGood.build_and_sign 0) = true :=
  build_fails_voucher_not_consumed.1 builderGood 0 cGood "v1" infoGood rfl rfl
    rfl rfl

/-- A propagated Result error is never a panic. -/
theorem liftE_eq_error_iff {α : Type} (x : Except EilError α) (f : Fail) :
    liftE x = .error f ↔ ∃ e, x = .error e ∧ f = .err e := by
  cases x with
  | ok a => simp [liftE]
  | error e => simp [liftE, eq_comm]

/-- A Result unwrap fails only by panicking at its own site. -/
theorem unwrapE_eq_error_iff {α : Type} (x : Except EilError α) (site : String)
    (f : Fail) :
    unwrapE x site = .error f ↔ (∃ e, x = .error e) ∧ f = .panicked site := by
  cases x with
  | ok a => simp [unwrapE]
  | error e => simp [unwrapE, eq_comm]

/-- The only panic the translation tail can raise is the destination
address unwrap. -/
theorem sdkToVoucherRest_panic_site (env : NetworkEnvironment)
    (account : MultiChainSmartAccount) (coordinator : VoucherCoordinator)
    (now : Nat) (req : SdkVoucherRequest) (sc : ChainId) (m : String)
    (h : sdkToVoucherRest env account coordinator now req sc =
      .error (.panicked m)) : m = destAddressUnwrapSite := by
  unfold sdkToVoucherRest at h
  simp only [bind, Except.bind, pure, Except.pure] at h
  repeat' split at h
  all_goals simp_all [liftE_eq_error_iff, unwrapE_eq_error_iff]

/-- When source_chain_id is set, translation cannot hit the
source_chain_id unwrap panic. -/
theorem sdk_to_voucher_request_no_source_panic (env : NetworkEnvironment)
    (account : Option MultiChainSmartAccount) (coordinator : VoucherCoordinator)
    (now : Nat) (req : SdkVoucherRequest)
    (hs : req.source_chain_id.isSome = true) :
    sdk_to_voucher_request env account coordinator now req ≠
      .error (.panicked sourceChainUnwrapSite) := by
  intro h
  unfold sdk_to_voucher_request at h
  simp only [bind, Except.bind] at h
  cases account with
  | none => simp [liftE] at h
  | some a =>
    simp only [liftE] at h
    cases hsc : req.source_chain_id with
    | none => rw [hsc] at hs; exact absurd hs (by simp)
    | some sc =>
      rw [hsc] at h
      simp only [unwrapO] at h
      have hsite := sdkToVoucherRest_panic_site env a coordinator now req sc
        sourceChainUnwrapSite h
      exact absurd hsite (by decide)

/-- srcOk depends only on the voucher and the source batch index. -/
theorem srcOk_of_fields (batches : List BatchBuilder)
    (i1 i2 : InternalVoucherInfo) (hv : i1.voucher = i2.voucher)
    (hs : i1.source_batch_index = i2.source_batch_index)
    (h : srcOk batches i2) : srcOk batches i1 := by
  unfold srcOk at h ⊢
  rw [hs, hv]
  exact h

/-- srcOk is stable under appending a batch. -/
theorem srcOk_append (batches : List BatchBuilder) (bb : BatchBuilder)
    (info : InternalVoucherInfo) (h : srcOk batches info) :
    srcOk (batches ++ [bb]) info := by
  unfold srcOk at h ⊢
  cases hg : batches.get? info.source_batch_index with
  | none => rw [hg] at h; exact h.elim
  | some b2 =>
    rw [hg] at h
    have hlt : info.source_batch_index < batches.length := by
      obtain ⟨hlt, _⟩ := List.get?_eq_some.mp hg
      exact hlt
    rw [List.get?_append hlt, hg]
    exact h

/-- Entries of a keyed modification keep their voucher and source index
when the update function does. -/
theorem mem_modifyEntry_src (c : VoucherCoordinator) (k : String)
    (f : InternalVoucherInfo → InternalVoucherInfo)
    (hf : ∀ j, (f j).voucher = j.voucher ∧
      (f j).source_batch_index = j.source_batch_index)
    (p : String × InternalVoucherInfo) (hp : p ∈ (c.modifyEntry k f).entries) :
    ∃ q ∈ c.entries, p.2.voucher = q.2.voucher ∧
      p.2.source_batch_index = q.2.source_batch_index := by
  obtain ⟨q, hq, he⟩ := List.mem_map.mp hp
  refine ⟨q, hq, ?_⟩
  subst he
  unfold modEntry
  by_cases hk : (q.1 == k) = true
  · simp only [hk, if_true]
    exact ⟨(hf q.2).1, (hf q.2).2⟩
  · simp [hk]

/-- Every entry after the end_batch registration loop is an old entry or a
fresh initial entry of one of the output vouchers at this batch index. -/
theorem registerOutputs_mem (outputs : List SdkVoucherRequest) :
    ∀ (c : VoucherCoordinator) (idx : Nat) (c2 : VoucherCoordinator),
      registerOutputs c idx outputs = .ok c2 →
      ∀ p ∈ c2.entries, p ∈ c.entries ∨
        ∃ v ∈ outputs, p.2.voucher = v ∧ p.2.source_batch_index = idx := by
  induction outputs with
  | nil =>
    intro c idx c2 h p hp
    simp only [registerOutputs, Except.ok.injEq] at h
    subst h
    exact Or.inl hp
  | cons v rest ih =>
    intro c idx c2 h p hp
    unfold registerOutputs at h
    cases hr : c.register v idx with
    | error e => rw [hr] at h; exact absurd h (by simp)
    | ok cm =>
      rw [hr] at h
      rcases ih cm idx c2 h p hp with hin | ⟨v2, hv2, he⟩
      · obtain ⟨hc, hcm⟩ := register_ok_eq c v idx cm hr
        rw [hcm] at hin
        rcases mem_insertByPos c.hashPos v.ref_id _ c.entries p hin with
          heq | hold
        · subst heq
          exact Or.inr ⟨v, List.mem_cons_self _ _, rfl, rfl⟩
        · exact Or.inl hold
      · exact Or.inr ⟨v2, List.mem_cons_of_mem _ hv2, he⟩

/-- One builder operation preserves the builder invariant. -/
theorem stepBuilder_inv (st st2 : BuilderState) (op : BuilderOp)
    (hinv : InvSt st) (h : stepBuilder st op = .ok st2) : InvSt st2 := by
  cases st with
  | ready b =>
    cases op with
    | startBatch cid =>
      simp only [stepBuilder, Except.ok.injEq] at h
      subst h
      refine ⟨hinv, rfl, ?_⟩
      intro v hv
      simp [CrossChainBuilder.start_batch] at hv
    | addVoucherRequest req => exact absurd h (by simp [stepBuilder])
    | useVoucher r => exact absurd h (by simp [stepBuilder])
    | endBatch => exact absurd h (by simp [stepBuilder])
  | inBatch ab =>
    obtain ⟨hpar, hidx, hout⟩ := hinv
    cases op with
    | startBatch cid => exact absurd h (by simp [stepBuilder])
    | addVoucherRequest req =>
      simp only [stepBuilder, Except.ok.injEq] at h
      subst h
      refine ⟨hpar, hidx, ?_⟩
      intro v hv
      simp only [ActiveBatch.add_voucher_request, List.mem_append,
        List.mem_singleton] at hv
      rcases hv with hold | hnew
      · exact hout v hold
      · subst hnew; rfl
    | useVoucher r =>
      cases hu : ab.use_voucher r with
      | error e =>
        rw [stepBuilder, hu] at h
        exact absurd h (by simp [liftE, Except.map])
      | ok ab2 =>
        rw [stepBuilder, hu] at h
        simp only [liftE, Except.map, Except.ok.injEq] at h
        subst h
        unfold ActiveBatch.use_voucher at hu
        simp only [bind, Except.bind] at hu
        cases hm : ab.parent.coordinator.mark_consumed r ab.batch.batch_index with
        | error e => simp only [hm] at hu; exact absurd hu (by simp)
        | ok cm =>
          simp only [hm] at hu
          cases hg : cm.get r with
          | error e => simp only [hg] at hu; exact absurd hu (by simp)
          | ok info =>
            simp only [hg] at hu
            injection hu with hu
            subst hu
            refine ⟨?_, hidx, hout⟩
            intro p hp
            have hcm := mark_consumed_ok_eq ab.parent.coordinator r
              ab.batch.batch_index cm hm
            rw [hcm] at hp
            obtain ⟨q, hq, hv, hsrc⟩ := mem_modifyEntry_src
              ab.parent.coordinator r
              (fun j => { j with dest_batch_index := some ab.batch.batch_index })
              (fun j => ⟨rfl, rfl⟩) p hp
            exact srcOk_of_fields ab.parent.batches p.2 q.2 hv hsrc (hpar q hq)
    | endBatch =>
      cases he : ab.end_batch with
      | error e =>
        rw [stepBuilder, he] at h
        exact absurd h (by simp [Except.map])
      | ok b2 =>
        rw [stepBuilder, he] at h
        simp only [Except.map, Except.ok.injEq] at h
        subst h
        unfold ActiveBatch.end_batch at he
        simp only [bind, Except.bind] at he
        cases hr : registerOutputs ab.parent.coordinator ab.batch.batch_index
            ab.batch.output_vouchers with
        | error e => simp only [hr] at he; exact absurd he (by simp)
        | ok c2 =>
          simp only [hr] at he
          injection he with he
          subst he
          intro p hp
          rcases registerOutputs_mem ab.batch.output_vouchers
              ab.parent.coordinator ab.batch.batch_index c2 hr p hp with
            hold | ⟨v, hv, hpv, hps⟩
          · exact srcOk_append ab.parent.batches ab.batch p.2 (hpar p hold)
          · unfold srcOk
            rw [hps, hidx, List.get?_concat_length]
            rw [hpv]
            exact hout v hv

/-- A run of builder operations preserves the builder invariant. -/
theorem runBuilder_inv (ops : List BuilderOp) :
    ∀ (st st2 : BuilderState), InvSt st → runBuilder st ops = .ok st2 →
      InvSt st2 := by
  induction ops with
  | nil =>
    intro st st2 hinv h
    simp only [runBuilder, Except.ok.injEq] at h
    subst h
    exact hinv
  | cons op rest ih =>
    intro st st2 hinv h
    unfold runBuilder at h
    simp only [bind, Except.bind] at h
    cases hs : stepBuilder st op with
    | error e => rw [hs] at h; exact absurd h (by simp)
    | ok stm =>
      rw [hs] at h
      exact ih stm st2 (stepBuilder_inv st stm op hinv hs) h

/-- C10: every coordinator entry a builder-surface run produces carries
source_chain_id = Some of its producing batch chain (add_voucher_request
stamps it before end_batch registers it), so translating such a voucher can
never hit the source_chain_id unwrap panic in sdk_to_voucher_request. -/
theorem builder_vouchers_source_chain_set (env : NetworkEnvironment)
    (hsh : String → Nat) (acct : MultiChainSmartAccount)
    (ops : List BuilderOp) (b : CrossChainBuilder)
    (hrun : runBuilder (.ready (initReady env hsh acct)) ops = .ok (.ready b)) :
    ∀ p ∈ b.coordinator.entries,
      (∃ bb, b.batches.get? p.2.source_batch_index = some bb ∧
        p.2.voucher.source_chain_id = some bb.chain_id) ∧
      ∀ (env2 : NetworkEnvironment) (account2 : Option MultiChainSmartAccount)
        (c2 : VoucherCoordinator) (now : Nat),
        sdk_to_voucher_request env2 account2 c2 now p.2.voucher ≠
          .error (.panicked sourceChainUnwrapSite) := by
  intro p hp
  have hinv0 : InvSt (.ready (initReady env hsh acct)) := by
    intro q hq
    simp [initReady, VoucherCoordinator.new] at hq
  have hinv := runBuilder_inv ops _ _ hinv0 hrun
  have hsrc := hinv p hp
  unfold srcOk at hsrc
  cases hg : b.batches.get? p.2.source_batch_index with
  | none => rw [hg] at hsrc; exact hsrc.elim
  | some bb =>
    rw [hg] at hsrc
    refine ⟨⟨bb, rfl, hsrc⟩, ?_⟩
    intro env2 account2 c2 now
    apply sdk_to_voucher_request_no_source_panic
    rw [hsrc]
    rfl

/-- Witness for C10 at the concrete run that registers one voucher from a
batch on chain 1. -/
theorem builder_vouchers_source_chain_set_witness :
    sdk_to_voucher_request envC (some acctC) c10state.coordinator 0 reqTen1 ≠
      .error (.panicked sourceChainUnwrapSite) := by
  have h := builder_vouchers_source_chain_set envC hash0 acctC c10ops c10state
    rfl ("v1",
      { voucher := reqTen1, source_batch_index := 0, dest_batch_index := none
        voucher_request := none, allowed_xlps := none, signed_voucher := none })
    (List.mem_cons_self _ _)
  exact h.2 envC (some acctC) c10state.coordinator 0

end Eil
